import Mathlib

/-!
# Verification of the game-KPI projection engine

A shallow embedding, in rational arithmetic, of the projection engine in
`src/backend/main.py` (FastAPI service, version 2.0.0), together with proofs
about the embedded definitions.  Python floats are modelled as `ℚ`; Python
`int(x)` is truncation toward zero; `a // b` is floor division; fallible
operations (dictionary lookups of required keys, `xs[-1]` on a possibly empty
list, `max()` over a possibly empty list) are modelled in `Except String`.
Transcendental library calls (`np.power` with a real exponent, `np.exp`,
`np.log`) and the `scipy.optimize.curve_fit` optimizer have no exact rational
counterpart; they are abstracted as function parameters, and every theorem
below either holds for all instantiations or states the hypotheses it needs
about them.
-/

set_option maxHeartbeats 1000000

/-- Python `int(x)` applied to a real value: truncation toward zero. -/
def pyInt (x : ℚ) : ℤ := if 0 ≤ x then Rat.floor x else Rat.ceil x

theorem pyInt_of_nonneg {x : ℚ} (h : 0 ≤ x) : pyInt x = Int.floor x := by
  rw [pyInt, if_pos h, Rat.floor_def', Rat.floor_def]

theorem pyInt_nonneg {x : ℚ} (h : 0 ≤ x) : 0 ≤ pyInt x := by
  rw [pyInt_of_nonneg h]
  exact Int.floor_nonneg.mpr h

theorem pyInt_le {x : ℚ} (h : 0 ≤ x) : (pyInt x : ℚ) ≤ x := by
  rw [pyInt_of_nonneg h]; exact Int.floor_le x

theorem lt_pyInt_add_one {x : ℚ} (h : 0 ≤ x) : x < pyInt x + 1 := by
  rw [pyInt_of_nonneg h]; exact_mod_cast Int.lt_floor_add_one x

theorem pyInt_intCast (n : ℤ) (h : 0 ≤ n) : pyInt (n : ℚ) = n := by
  rw [pyInt_of_nonneg (by exact_mod_cast h), Int.floor_intCast]

/-- Python integer floor division `a // b`; division by zero is guarded at
every call site in the source. -/
def pyFloorDiv (a b : ℤ) : ℤ := Int.fdiv a b

/-- `np.mean` over a list of values; the source guards every call against an
empty list (an unguarded empty mean is modelled as an error at its call
site). -/
def npMean (xs : List ℚ) : ℚ := xs.sum / xs.length

/-- Association-list lookup, modelling Python `dict[key]` / `dict.get`. -/
def dictLookup {α : Type} (d : List (String × α)) (k : String) : Option α :=
  (d.find? (fun p => p.1 == k)).map (fun p => p.2)

/-- Python `dict.get(key, default)`. -/
def dictGetD {α : Type} (d : List (String × α)) (k : String) (v : α) : α :=
  (dictLookup d k).getD v

/-- `main.py:176` `calculate_time_decay_weight`: the time-decay blend weight
`w(day) = clamp(0.9 − 0.8·(day−1)/(days−1), 0.1, 0.9)`, with the `days > 1`
guard of the source. -/
def calculate_time_decay_weight (day : ℤ) (days : ℤ) : ℚ :=
  let weight_internal : ℚ :=
    if 1 < days then 0.9 - (0.8 * ((day : ℚ) - 1) / ((days : ℚ) - 1)) else 0.9
  max (min weight_internal 0.9) 0.1

/-- `main.py:588` the CPA saturation factor
`1 + (ua_budget / 500_000_000) * 0.05`. -/
def saturation_factor (ua_budget : ℤ) : ℚ :=
  1 + ((ua_budget : ℚ) / 500000000) * 0.05

/-- `main.py:587-592` the effective CPA inside `generate_nru_series_v85`:
`int(target_cpa * saturation_factor)` when saturation is enabled and
`ua_budget > 0`, else `target_cpa`. -/
def effective_cpa (cpa_saturation_enabled : Bool) (ua_budget target_cpa : ℤ) : ℤ :=
  if cpa_saturation_enabled = true ∧ 0 < ua_budget then
    pyInt ((target_cpa : ℚ) * saturation_factor ua_budget)
  else target_cpa

/-- C8: the time-decay blend weight equals exactly 0.9 at day 1 and exactly
0.1 at the final day for every horizon `days > 1`, and equals 0.9 when
`days = 1`. -/
theorem time_decay_weight_boundary (days : ℤ) (h : 1 < days) :
    calculate_time_decay_weight 1 days = 0.9 ∧
    calculate_time_decay_weight days days = 0.1 ∧
    calculate_time_decay_weight 1 1 = 0.9 := by
  have hne : ((days : ℚ) - 1) ≠ 0 := by
    have : (1 : ℚ) < (days : ℚ) := by exact_mod_cast h
    linarith
  refine ⟨?_, ?_, ?_⟩
  · simp only [calculate_time_decay_weight, if_pos h]
    norm_num
  · simp only [calculate_time_decay_weight, if_pos h]
    rw [show (0.8 : ℚ) * ((days : ℚ) - 1) / ((days : ℚ) - 1) = 0.8 by
      field_simp]
    norm_num
  · norm_num [calculate_time_decay_weight]

/-- Witness for `time_decay_weight_boundary` at the default horizon 365. -/
theorem time_decay_weight_boundary_witness :
    calculate_time_decay_weight 1 365 = 0.9 ∧
    calculate_time_decay_weight 365 365 = 0.1 ∧
    calculate_time_decay_weight 1 1 = 0.9 :=
  time_decay_weight_boundary 365 (by decide)

/-- C2 counterexample: at a UA budget exactly equal to the reference scale
500,000,000 (and the default target CPA 2000), the code's effective CPA is
`int(2000 · (1 + (5·10⁸/5·10⁸) · 0.05)) = 2100`, strictly above the target —
the claim that `effectiveCPA = targetCPA` at or below the reference scale is
false, and the increase is linear in the budget, not logarithmic. -/
theorem effective_cpa_at_reference_cex :
    effective_cpa true 500000000 2000 = 2100 ∧ (2100 : ℤ) ≠ 2000 := by
  constructor
  · have h : (2000 : ℚ) * saturation_factor 500000000 = 2100 := by
      norm_num [saturation_factor]
    rw [effective_cpa, if_pos ⟨rfl, by norm_num⟩]
    push_cast
    rw [h, pyInt_of_nonneg (by norm_num)]
    norm_num
  · decide

/-- C2 amended: the saturation factor is the linear function
`1 + (ua_budget/5·10⁸)·0.05`; whenever saturation is enabled and the budget
is positive, `effectiveCPA = int(targetCPA · (1 + (ua/5·10⁸)·0.05))`, which
strictly exceeds the target CPA as soon as the linear increase
`targetCPA·(ua/5·10⁸)·0.05` reaches 1 (integer truncation absorbs smaller
increases); at a budget of 1e9 (twice the reference scale) the factor is
exactly 1.1. -/
theorem effective_cpa_linear (ua target : ℤ) (hu : 0 < ua) (ht : 0 < target) :
    effective_cpa true ua target
      = pyInt ((target : ℚ) * (1 + ((ua : ℚ) / 500000000) * 0.05)) ∧
    ((1 : ℚ) ≤ (target : ℚ) * (((ua : ℚ) / 500000000) * 0.05) →
      target < effective_cpa true ua target) ∧
    saturation_factor 1000000000 = 1.1 := by
  have hform : effective_cpa true ua target
      = pyInt ((target : ℚ) * (1 + ((ua : ℚ) / 500000000) * 0.05)) := by
    rw [effective_cpa, if_pos ⟨rfl, hu⟩, saturation_factor]
  refine ⟨hform, ?_, by norm_num [saturation_factor]⟩
  intro hinc
  have harg : (0 : ℚ) ≤ (target : ℚ) * (1 + ((ua : ℚ) / 500000000) * 0.05) := by
    have h1 : (0 : ℚ) ≤ (target : ℚ) := by exact_mod_cast ht.le
    have h2 : (0 : ℚ) ≤ ((ua : ℚ) / 500000000) * 0.05 := by
      have : (0 : ℚ) ≤ (ua : ℚ) := by exact_mod_cast hu.le
      positivity
    nlinarith
  rw [hform, pyInt_of_nonneg harg]
  have : ((target : ℚ) + 1) ≤ (target : ℚ) * (1 + ((ua : ℚ) / 500000000) * 0.05) := by
    nlinarith
  have hfl := Int.le_floor.mpr (by push_cast; linarith :
    ((target + 1 : ℤ) : ℚ) ≤ (target : ℚ) * (1 + ((ua : ℚ) / 500000000) * 0.05))
  omega

/-- Witness for `effective_cpa_linear` at the saturation E2E example budget
1e9 and target CPA 2000. -/
theorem effective_cpa_linear_witness :
    effective_cpa true 1000000000 2000
      = pyInt ((((2000 : ℤ)) : ℚ) * (1 + ((((1000000000 : ℤ)) : ℚ) / 500000000) * 0.05)) ∧
    ((1 : ℚ) ≤ (((2000 : ℤ)) : ℚ) * (((((1000000000 : ℤ)) : ℚ) / 500000000) * 0.05) →
      2000 < effective_cpa true 1000000000 2000) ∧
    saturation_factor 1000000000 = 1.1 :=
  effective_cpa_linear 1000000000 2000 (by decide) (by decide)

/-- `main.py:761-765` the per-cohort retention factor inside
`calculate_dau_matrix`: exactly `1.0` on the install day
(`days_since_install == 0`, the curve array is not consulted), else
`curve[days_since_install - 1]` when that index is in range, else `0`. -/
def dau_retention (retention_curve : List ℚ) (days_since_install : ℕ) : ℚ :=
  if days_since_install = 0 then 1
  else if h : days_since_install - 1 < retention_curve.length then
    retention_curve.get ⟨days_since_install - 1, h⟩
  else 0

/-- `main.py:755-767` one cohort's contribution to DAU on `active_day`
(with the `cohort_day < len(nru_series)` guard of the source). -/
def dau_contribution (nru_series : List ℤ) (retention_curve : List ℚ)
    (active_day cohort_day : ℕ) : ℚ :=
  if cohort_day < nru_series.length then
    ((nru_series.getD cohort_day 0 : ℤ) : ℚ)
      * dau_retention retention_curve (active_day - cohort_day)
  else 0

/-- `main.py:745-770` `calculate_dau_matrix`: the O(days²) triangular cohort
accumulation, truncated to `int` per day. -/
def calculate_dau_matrix (nru_series : List ℤ) (retention_curve : List ℚ)
    (days : ℕ) : List ℤ :=
  (List.range days).map fun active_day =>
    pyInt (((List.range (active_day + 1)).map
      (dau_contribution nru_series retention_curve active_day)).sum)

/-- C3: in cohort DAU reconstruction, for every NRU series, every retention
curve and every cohort day `c` in range: the cohort's contribution on its
install day (`t = c`) is exactly `nru[c]` (the curve array is not consulted),
its contribution on a later day `t > c` is `nru[c] · curve[(t−c)−1]` whenever
that index is in range, and each day's DAU entry is the truncated sum of the
per-cohort contributions. -/
theorem dau_cohort_contribution (nru : List ℤ) (curve : List ℚ) (c : ℕ)
    (hc : c < nru.length) :
    dau_contribution nru curve c c = ((nru.getD c 0 : ℤ) : ℚ) ∧
    (∀ t, c < t → ∀ h : t - c - 1 < curve.length,
      dau_contribution nru curve t c
        = ((nru.getD c 0 : ℤ) : ℚ) * curve.get ⟨t - c - 1, h⟩) ∧
    (∀ days t, t < days →
      (calculate_dau_matrix nru curve days).getD t 0
        = pyInt (((List.range (t + 1)).map (dau_contribution nru curve t)).sum)) := by
  refine ⟨?_, ?_, ?_⟩
  · rw [dau_contribution, if_pos hc, Nat.sub_self, dau_retention, if_pos rfl, mul_one]
  · intro t ht h
    have hne : t - c ≠ 0 := Nat.sub_ne_zero_of_lt ht
    rw [dau_contribution, if_pos hc, dau_retention, if_neg hne, dif_pos h]
  · intro days t htd
    rw [calculate_dau_matrix, List.getD_eq_getElem?_getD, List.getElem?_map,
      List.getElem?_range htd]
    rfl

/-- Witness for `dau_cohort_contribution` at `nru = [100, 50]`,
`curve = [1/2]`, cohort day 0. -/
theorem dau_cohort_contribution_witness :
    dau_contribution [100, 50] [1/2] 0 0 = (([100, 50].getD 0 0 : ℤ) : ℚ) ∧
    (∀ t, 0 < t → ∀ h : t - 0 - 1 < ([1/2] : List ℚ).length,
      dau_contribution [100, 50] [1/2] t 0
        = (([100, 50].getD 0 0 : ℤ) : ℚ) * ([1/2] : List ℚ).get ⟨t - 0 - 1, h⟩) ∧
    (∀ days t, t < days →
      (calculate_dau_matrix [100, 50] [1/2] days).getD t 0
        = pyInt (((List.range (t + 1)).map (dau_contribution [100, 50] [1/2] t)).sum)) :=
  dau_cohort_contribution [100, 50] [1/2] 0 (by decide)

/-- `main.py:375` `retention_curve(x, a, b) = a * np.power(x, b)`.
`np.power` with a real exponent is transcendental, so the map `x ↦ x^b` is
abstracted as the parameter `powb` (for the true power function,
`powb 1 = 1^b = 1` and `powb x > 0` for `x ≥ 1`). -/
def retention_curve (powb : ℕ → ℚ) (x : ℕ) (a : ℚ) : ℚ := a * powb x

/-- `main.py:417-429` `generate_retention_curve`: rescale the fitted power
law so day 1 hits `target_d1`, then clamp each day into `[0.001, 1]`. -/
def generate_retention_curve (powb : ℕ → ℚ) (a target_d1 : ℚ) (days : ℕ) :
    List ℚ :=
  let base_d1 := retention_curve powb 1 a
  let scale_factor := if 0 < base_d1 then target_d1 / base_d1 else 1
  (List.range days).map fun i =>
    min (max (retention_curve powb (i + 1) a * scale_factor) 0.001) 1

/-- C4 counterexample: for the valid power-law parameters `(a, b) = (1, 0)`
(so `a·1^b = 1 > 0`, modelled by `powb = fun _ => 1`) and the target day-1
retention `0` — a legitimate retention fraction — the first curve element is
the clamp floor `0.001`, not the target `0`: the claimed equality
`curve[0] = target_d1` fails for targets below the clamp floor (and likewise
above 1), not "for every target day-1 retention value". -/
theorem generate_retention_curve_head_cex :
    (generate_retention_curve (fun _ => 1) 1 0 1).getD 0 0 = 0.001 ∧
    (0.001 : ℚ) ≠ 0 := by
  constructor
  · rw [generate_retention_curve]
    norm_num [retention_curve, List.range_succ]
  · norm_num

/-- C4 amended: for every abstracted power law with `a·1^b > 0`, every
horizon `days ≥ 1`, and every target day-1 retention inside the clamp range
`[0.001, 1]` (retention targets are fractions in `[0, 1]`; values below the
0.001 floor are clamped), the first element of the generated curve equals
the target exactly (rational arithmetic; the source states this to within
floating-point tolerance). -/
theorem generate_retention_curve_head (powb : ℕ → ℚ) (a t : ℚ) (days : ℕ)
    (hpos : 0 < retention_curve powb 1 a) (hd : 0 < days)
    (h1 : (0.001 : ℚ) ≤ t) (h2 : t ≤ 1) :
    (generate_retention_curve powb a t days).getD 0 0 = t := by
  obtain ⟨n, rfl⟩ : ∃ n, days = n + 1 := ⟨days - 1, (Nat.succ_pred_eq_of_pos hd).symm⟩
  rw [generate_retention_curve]
  simp only [List.getD_eq_getElem?_getD, List.getElem?_map,
    List.getElem?_range (Nat.succ_pos n)]
  have hne : retention_curve powb 1 a ≠ 0 := ne_of_gt hpos
  have hval : retention_curve powb (0 + 1) a
      * (if 0 < retention_curve powb 1 a then t / retention_curve powb 1 a else 1)
      = t := by
    rw [if_pos hpos]
    show retention_curve powb 1 a * (t / retention_curve powb 1 a) = t
    field_simp
  simp only [Option.map_some', Option.getD_some]
  rw [hval, max_eq_left h1, min_eq_left h2]

/-- Witness for `generate_retention_curve_head`: fitted `(a, b) = (0.4, 0)`
modelled by `powb = fun _ => 1`, target day-1 retention 0.45, horizon 3. -/
theorem generate_retention_curve_head_witness :
    (generate_retention_curve (fun _ => 1) 0.4 0.45 3).getD 0 0 = 0.45 :=
  generate_retention_curve_head (fun _ => 1) 0.4 0.45 3
    (by norm_num [retention_curve]) (by norm_num) (by norm_num) (by norm_num)

theorem pyInt_zero : pyInt 0 = 0 := by
  rw [pyInt_of_nonneg le_rfl]; exact Int.floor_zero

theorem range_getD_map {α β : Type} (xs : List α) (d : α) (f : α → β) :
    (List.range xs.length).map (fun i => f (xs.getD i d)) = xs.map f := by
  induction xs with
  | nil => rfl
  | cons x xs ih =>
    rw [List.length_cons, List.range_succ_eq_map, List.map_cons, List.map_map]
    simp only [Function.comp_def, List.getD_cons_zero, List.getD_cons_succ,
      List.map_cons]
    rw [ih]

theorem floor_sum_bounds (ys : List ℚ) (h : ∀ y ∈ ys, 0 ≤ y) :
    ys.sum - ys.length ≤ (((ys.map (fun y => pyInt y)).sum : ℤ) : ℚ) ∧
    (((ys.map (fun y => pyInt y)).sum : ℤ) : ℚ) ≤ ys.sum := by
  induction ys with
  | nil => simp
  | cons y ys ih =>
    have hy : 0 ≤ y := h y (List.mem_cons_self y ys)
    have hys := ih (fun z hz => h z (List.mem_cons_of_mem y hz))
    have hub := pyInt_le hy
    have hlb := lt_pyInt_add_one hy
    simp only [List.map_cons, List.sum_cons, List.length_cons] at *
    push_cast
    push_cast at hys
    constructor
    · linarith
    · linarith

/-- `main.py:655` (and `main.py:484-487`): the launch-window power-law decay
pattern `[1/t^0.8 for t in 1..launch_period]`; the transcendental map
`t ↦ t^0.8` is abstracted as the positive-valued parameter `pow08`. -/
def nru_decay_pattern (pow08 : ℕ → ℚ) (launch_period : ℕ) : List ℚ :=
  (List.range launch_period).map fun t => 1 / pow08 (t + 1)

/-- `main.py:654-661` the post-launch UA distribution loop of
`generate_nru_series_v85`: area-normalized scale `post_launch_paid_nru /
pattern_area`, each day truncated to `int` and clamped at `max(·, 0)`. -/
def post_launch_distribution (pow08 : ℕ → ℚ) (post_launch_paid_nru : ℤ)
    (launch_period days : ℕ) : List ℤ :=
  let pattern := nru_decay_pattern pow08 launch_period
  let pattern_area := pattern.sum
  let d1_scale : ℚ :=
    if 0 < pattern_area then (post_launch_paid_nru : ℚ) / pattern_area else 0
  (List.range (min launch_period days)).map fun day =>
    max (pyInt (d1_scale * pattern.getD day 0)) 0

/-- `main.py:460-514` `generate_nru_series` (the legacy `d1_nru` input path):
the same area-normalized launch window but clamped at `max(·, 10)`, followed
by an exponentially decaying sustaining phase (the unused `daily_ratios`
argument of the source is omitted; `np.exp` is abstracted as `expf`). -/
def generate_nru_series (pow08 : ℕ → ℚ) (expf : ℚ → ℚ) (total_nru : ℤ)
    (days launch_period : ℕ) (sustaining_ratio : ℚ) : List ℤ :=
  let pattern := nru_decay_pattern pow08 launch_period
  let pattern_area := pattern.sum
  let d1_scale : ℚ :=
    if 0 < pattern_area then (total_nru : ℚ) / pattern_area else 0
  let phase1 := (List.range (min launch_period days)).map fun day =>
    max (pyInt (d1_scale * pattern.getD day 0)) 10
  let d30_nru : ℤ := (phase1.getLast?).getD 100
  let sustaining_nru := pyInt ((d30_nru : ℚ) * sustaining_ratio * 10)
  let phase2 := (List.range (days - launch_period)).map fun (i : ℕ) =>
    max (pyInt ((sustaining_nru : ℚ) * expf (-(1/20) * ((i : ℚ) / 30)))) 10
  (phase1 ++ phase2).take days

/-- C7 counterexample: in the legacy `generate_nru_series`, the launch-window
minimum of 10 users per day breaks area normalization: with a post-launch
total of `0` users and a 2-day window (2-day horizon), the emitted series is
`[10, 10]`, whose sum 20 exceeds the total 0 by more than the claimed
`launchPeriod = 2` units of truncation slack.  (With total 0 the scale factor
is 0, so the result is independent of the abstracted `t^0.8` values and of
`np.exp`; the placeholder instantiations do not matter.) -/
theorem generate_nru_series_area_cex :
    (generate_nru_series (fun t => (t : ℚ)) (fun _ => 1) 0 2 2 (1/10)).sum = 20 ∧
    ¬((20 : ℤ) - 0 ≤ 2) := by
  constructor
  · rw [generate_nru_series, nru_decay_pattern]
    norm_num [List.range_succ, pyInt_zero]
  · decide

/-- C7 amended, for the v8.5 post-launch UA distribution (`main.py:654-661`,
whose per-day clamp is `max(·, 0)`): for every positive decay-pattern
abstraction, every nonnegative post-launch paid-user total, every launch
window of length ≥ 1 and every horizon covering the window, the sum of the
distributed window equals the total to within `launchPeriod` units of
integer-truncation slack (the shape only splits the volume; each day loses
less than 1 user to truncation). -/
theorem post_launch_area_normalization (pow08 : ℕ → ℚ) (total : ℤ)
    (launch_period days : ℕ) (hpow : ∀ t, 0 < pow08 (t + 1))
    (hlp : 0 < launch_period) (hdays : launch_period ≤ days) (htot : 0 ≤ total) :
    (total : ℤ) - launch_period ≤ (post_launch_distribution pow08 total launch_period days).sum ∧
    (post_launch_distribution pow08 total launch_period days).sum ≤ total ∧
    (post_launch_distribution pow08 total launch_period days).length = launch_period := by
  have hmin : min launch_period days = launch_period := min_eq_left hdays
  set pattern := nru_decay_pattern pow08 launch_period with hpat
  have hpatlen : pattern.length = launch_period := by
    rw [hpat, nru_decay_pattern, List.length_map, List.length_range]
  have hpatpos : ∀ p ∈ pattern, 0 < p := by
    intro p hp
    rw [hpat, nru_decay_pattern] at hp
    obtain ⟨i, _, rfl⟩ := List.mem_map.mp hp
    exact div_pos one_pos (hpow i)
  have hpatne : pattern ≠ [] := by
    intro hnil
    rw [hnil] at hpatlen
    simp at hpatlen
    omega
  have harea : 0 < pattern.sum := List.sum_pos pattern hpatpos hpatne
  have hscale :
      (if 0 < pattern.sum then (total : ℚ) / pattern.sum else 0)
        = (total : ℚ) / pattern.sum := if_pos harea
  set d1_scale : ℚ := (total : ℚ) / pattern.sum with hds
  have hscale_nonneg : 0 ≤ d1_scale := by
    rw [hds]
    exact div_nonneg (by exact_mod_cast htot) harea.le
  have hdist : post_launch_distribution pow08 total launch_period days
      = pattern.map (fun p => pyInt (d1_scale * p)) := by
    rw [post_launch_distribution, hmin, ← hpat, ← hpatlen, hscale]
    rw [range_getD_map pattern 0 (fun p => max (pyInt (d1_scale * p)) 0)]
    refine List.map_congr_left (fun p hp => ?_)
    exact max_eq_left (pyInt_nonneg (mul_nonneg hscale_nonneg (hpatpos p hp).le))
  have hmm : pattern.map (fun p => pyInt (d1_scale * p))
      = (pattern.map (fun p => d1_scale * p)).map (fun y => pyInt y) := by
    rw [List.map_map]; rfl
  have hys_sum : (pattern.map (fun p => d1_scale * p)).sum = total := by
    rw [List.sum_map_mul_left]
    rw [hds]
    field_simp
  have hys_len : (pattern.map (fun p => d1_scale * p)).length = launch_period := by
    rw [List.length_map, hpatlen]
  have hys_nonneg : ∀ y ∈ pattern.map (fun p => d1_scale * p), 0 ≤ y := by
    intro y hy
    obtain ⟨p, hp, rfl⟩ := List.mem_map.mp hy
    exact mul_nonneg hscale_nonneg (hpatpos p hp).le
  obtain ⟨hlb, hub⟩ := floor_sum_bounds _ hys_nonneg
  rw [hys_sum, hys_len] at hlb
  rw [hys_sum] at hub
  refine ⟨?_, ?_, ?_⟩
  · rw [hdist, hmm]; exact_mod_cast hlb
  · rw [hdist, hmm]; exact_mod_cast hub
  · rw [hdist, List.length_map, hpatlen]

/-- Witness for `post_launch_area_normalization`: the true decay shape at a
2-day window is `[1, 1/2^0.8]`; any positive stand-in works, here
`pow08 = fun t => t`, with 7 post-launch users over a 2-day window in a
30-day horizon. -/
theorem post_launch_area_normalization_witness :
    (7 : ℤ) - 2 ≤ (post_launch_distribution (fun t => (t : ℚ)) 7 2 30).sum ∧
    (post_launch_distribution (fun t => (t : ℚ)) 7 2 30).sum ≤ 7 ∧
    (post_launch_distribution (fun t => (t : ℚ)) 7 2 30).length = 2 :=
  post_launch_area_normalization (fun t => (t : ℚ)) 7 2 30
    (fun t => by show (0 : ℚ) < ((t + 1 : ℕ) : ℚ); exact_mod_cast t.succ_pos)
    (by decide) (by decide) (by decide)

/-- `main.py:382-383` the number of valid points for the retention fit:
values with `0 < y ≤ 1`. -/
def fit_valid_count (retention_data : List ℚ) : ℕ :=
  (retention_data.filter (fun y => decide (0 < y) && decide (y ≤ 1))).length

/-- `main.py:378-397` `fit_retention_curve`.  The bounded
`scipy.optimize.curve_fit` call is abstracted as the oracle `opt`:
`some (a, b)` when the optimizer converges, `none` when it raises (the bare
`except` branch).  Fewer than 3 valid points return `(None, None)`; an
optimizer exception returns the fallback `(retention_data[0], -0.5)`. -/
def fit_retention_curve (opt : List ℚ → Option (ℚ × ℚ))
    (retention_data : List ℚ) : Option ℚ × Option ℚ :=
  if fit_valid_count retention_data < 3 then (none, none)
  else
    match opt retention_data with
    | some ab => (some ab.1, some ab.2)
    | none => (some (retention_data.headD 0), some (-0.5))

/-- `main.py:405-410` the per-game step of the aggregation loop: skip games
missing from the store and games whose fit returned `a = None`. -/
def retention_pair_for_game (opt : List ℚ → Option (ℚ × ℚ))
    (retention_games : List (String × List ℚ)) (g : String) : Option (ℚ × ℚ) :=
  match dictLookup retention_games g with
  | some data =>
    match fit_retention_curve opt data with
    | (some a, some b) => some (a, b)
    | _ => none
  | none => none

/-- `main.py:399-415` `calculate_retention_coefficients`: fit each selected
game present in the store independently, keep the pairs whose `a` is not
`None`, and arithmetic-mean them; default to `(1.0, -0.5)` when no pair
remains. -/
def calculate_retention_coefficients (opt : List ℚ → Option (ℚ × ℚ))
    (retention_games : List (String × List ℚ)) (selected_games : List String) :
    ℚ × ℚ :=
  let pairs := selected_games.filterMap (retention_pair_for_game opt retention_games)
  if pairs = [] then (1, -0.5)
  else (npMean (pairs.map Prod.fst), npMean (pairs.map Prod.snd))

/-- C9 counterexample: on the series `[0.5]` (a single valid point, hence
fewer than 3), `fit_retention_curve` returns `(None, None)` — the selected
game is skipped by the caller — and not the claimed fallback
`(y₀, -0.5) = (0.5, -0.5)`.  (The optimizer oracle is irrelevant on this
branch; `none` is used.) -/
theorem fit_retention_curve_few_points_cex :
    fit_retention_curve (fun _ => none) [1/2] = (none, none) ∧
    ((none : Option ℚ), (none : Option ℚ))
      ≠ (some ((1 : ℚ)/2), some (-(1/2) : ℚ)) := by
  constructor
  · rw [fit_retention_curve, if_pos]
    rw [fit_valid_count]
    norm_num [List.filter]
  · simp

/-- C9 amended: with fewer than 3 valid points the fitter returns
`(None, None)` (the game is skipped, not given fallback parameters); the
fallback `(y₀, -0.5)` is returned only when 3 or more valid points exist and
the optimizer raises; and when no selected reference game yields fitted
parameters the aggregated coefficients default to `(1.0, -0.5)`. -/
theorem fit_retention_fallbacks (opt : List ℚ → Option (ℚ × ℚ))
    (data : List ℚ) (retention_games : List (String × List ℚ))
    (selected_games : List String) :
    (fit_valid_count data < 3 → fit_retention_curve opt data = (none, none)) ∧
    (3 ≤ fit_valid_count data → opt data = none →
      fit_retention_curve opt data = (some (data.headD 0), some (-0.5))) ∧
    ((∀ g ∈ selected_games, ∀ d, dictLookup retention_games g = some d →
        (fit_retention_curve opt d).1 = none) →
      calculate_retention_coefficients opt retention_games selected_games
        = (1, -0.5)) := by
  refine ⟨?_, ?_, ?_⟩
  · intro h
    rw [fit_retention_curve, if_pos h]
  · intro h hopt
    rw [fit_retention_curve, if_neg (by omega), hopt]
  · intro hall
    rw [calculate_retention_coefficients]
    have hnil : selected_games.filterMap
        (retention_pair_for_game opt retention_games) = [] := by
      rw [List.filterMap_eq_nil_iff]
      intro g hg
      rw [retention_pair_for_game]
      cases hfind : dictLookup retention_games g with
      | none => rfl
      | some d =>
        have h1 : (fit_retention_curve opt d).1 = none := hall g hg d hfind
        cases hfp : fit_retention_curve opt d with
        | mk f1 f2 =>
          rw [hfp] at h1
          simp only at h1
          subst h1
          simp only [hfp]
    rw [hnil]
    simp

/-- Witness for `fit_retention_fallbacks`: the exception fallback on
`[1, 1, 1]` with a diverging optimizer, and the `(1.0, -0.5)` default for a
store holding only the 1-point series `[0.5]` for the selected game. -/
theorem fit_retention_fallbacks_witness :
    (fit_valid_count [1/2] < 3 →
      fit_retention_curve (fun _ => none) [1/2] = (none, none)) ∧
    (3 ≤ fit_valid_count [1/2] →  (fun _ => (none : Option (ℚ × ℚ))) [1/2] = none →
      fit_retention_curve (fun _ => none) [1/2]
        = (some (([1/2] : List ℚ).headD 0), some (-0.5))) ∧
    ((∀ g ∈ ["gameA"], ∀ d, dictLookup [("gameA", [1/2])] g = some d →
        (fit_retention_curve (fun _ => none) d).1 = none) →
      calculate_retention_coefficients (fun _ => none) [("gameA", [1/2])] ["gameA"]
        = (1, -0.5)) :=
  fit_retention_fallbacks (fun _ => none) [1/2] [("gameA", [1/2])] ["gameA"]

/-- Modelled from the spec: the break-even computation is absent from `src`
(the summary assembled at `main.py:1291-1328` carries no `bep_day`; the
consumers at `main.py:850` and `main.py:1390` only read it with
`summary.get('bep_day', -1)`).  Spec §4.7: "break-even day = index of the
first day where cumulative profit ≥ 0, reported as 1-based day number, or a
sentinel (−1) if never reached within the horizon."  `bep_day_from start`
scans the remaining series, `start` days already inspected. -/
def bep_day_from (start : ℕ) : List ℚ → ℤ
  | [] => -1
  | x :: xs => if 0 ≤ x then (start + 1 : ℤ) else bep_day_from (start + 1) xs

/-- Modelled from the spec (§4.7): the 1-based break-even day of a
cumulative-profit series, `-1` when never reached. -/
def bep_day (cumulative_profit : List ℚ) : ℤ := bep_day_from 0 cumulative_profit

theorem bep_day_from_spec (xs : List ℚ) : ∀ start : ℕ,
    (bep_day_from start xs = -1 ∧ ∀ i (h : i < xs.length), xs.get ⟨i, h⟩ < 0) ∨
    (∃ i, ∃ h : i < xs.length, bep_day_from start xs = (start : ℤ) + i + 1 ∧
      0 ≤ xs.get ⟨i, h⟩ ∧ ∀ j (hj : j < i), xs.get ⟨j, Nat.lt_trans hj h⟩ < 0) := by
  induction xs with
  | nil =>
    intro start
    exact Or.inl ⟨rfl, fun i h => absurd h (by simp)⟩
  | cons x xs ih =>
    intro start
    by_cases hx : 0 ≤ x
    · refine Or.inr ⟨0, Nat.succ_pos xs.length, ?_, ?_, ?_⟩
      · rw [bep_day_from, if_pos hx]
        push_cast
        ring
      · exact hx
      · intro j hj
        exact absurd hj (Nat.not_lt_zero j)
    · rcases ih (start + 1) with ⟨heq, hall⟩ | ⟨i, h, heq, hge, hlt⟩
      · refine Or.inl ⟨?_, ?_⟩
        · rw [bep_day_from, if_neg hx]
          exact heq
        · intro i hilen
          cases i with
          | zero => exact lt_of_not_le hx
          | succ i => exact hall i (Nat.lt_of_succ_lt_succ hilen)
      · refine Or.inr ⟨i + 1, Nat.succ_lt_succ h, ?_, ?_, ?_⟩
        · rw [bep_day_from, if_neg hx, heq]
          push_cast
          ring
        · exact hge
        · intro j hj
          cases j with
          | zero => exact lt_of_not_le hx
          | succ j => exact hlt j (Nat.lt_of_succ_lt_succ hj)

/-- C5: the reported break-even day is either `-1` with every day of the
cumulative-profit series strictly negative, or the 1-based index of the
first day whose cumulative profit is ≥ 0 (all earlier days strictly
negative). -/
theorem bep_day_first_nonneg (cum : List ℚ) :
    (bep_day cum = -1 ∧ ∀ i (h : i < cum.length), cum.get ⟨i, h⟩ < 0) ∨
    (∃ i, ∃ h : i < cum.length, bep_day cum = (i : ℤ) + 1 ∧
      0 ≤ cum.get ⟨i, h⟩ ∧ ∀ j (hj : j < i), cum.get ⟨j, Nat.lt_trans hj h⟩ < 0) := by
  rcases bep_day_from_spec cum 0 with h | ⟨i, h, heq, hge, hlt⟩
  · exact Or.inl h
  · refine Or.inr ⟨i, h, ?_, hge, hlt⟩
    rw [bep_day, heq]
    push_cast
    ring

/-- Day count from civil date (days since 1970-01-01, proleptic Gregorian;
Python's `datetime` arithmetic is this calendar). -/
def daysFromCivil (y m d : ℤ) : ℤ :=
  let yy := y - (if m ≤ 2 then 1 else 0)
  let era := Int.fdiv yy 400
  let yoe := yy - era * 400
  let mp := Int.emod (m + 9) 12
  let doy := Int.fdiv (153 * mp + 2) 5 + d - 1
  let doe := yoe * 365 + Int.fdiv yoe 4 - Int.fdiv yoe 100 + doy
  era * 146097 + doe - 719468

/-- Civil date from day count: inverse of `daysFromCivil`, giving
`(year, month, day_of_month)`. -/
def civilFromDays (z0 : ℤ) : ℤ × ℤ × ℤ :=
  let z := z0 + 719468
  let era := Int.fdiv z 146097
  let doe := z - era * 146097
  let yoe := Int.fdiv (doe - Int.fdiv doe 1460 + Int.fdiv doe 36524
    - Int.fdiv doe 146096) 365
  let y := yoe + era * 400
  let doy := doe - (365 * yoe + Int.fdiv yoe 4 - Int.fdiv yoe 100)
  let mp := Int.fdiv (5 * doy + 2) 153
  let d := doy - Int.fdiv (153 * mp + 2) 5 + 1
  let m := mp + (if mp < 10 then 3 else -9)
  (y + (if m ≤ 2 then 1 else 0), m, d)

/-- Python `datetime.weekday()`: Monday = 0; 1970-01-01 was a Thursday. -/
def pyWeekday (z : ℤ) : ℤ := Int.emod (z + 3) 7

/-- `main.py:84-93` `SEASONALITY_BY_REGION`: per-region month-of-year
factors, months 1..12 in order. -/
def SEASONALITY_BY_REGION : List (String × List ℚ) :=
  [("korea", [1.15, 1.20, 1.00, 0.95, 1.00, 0.95, 1.05, 1.10, 1.00, 1.05, 1.10, 1.15]),
   ("japan", [1.10, 1.05, 1.05, 1.10, 1.15, 0.95, 1.00, 1.05, 1.00, 1.00, 1.05, 1.20]),
   ("china", [1.10, 1.25, 1.00, 0.95, 1.05, 1.10, 1.05, 1.00, 1.00, 1.20, 1.15, 1.05]),
   ("global", [0.95, 0.90, 0.95, 1.00, 1.00, 1.00, 1.05, 1.00, 1.00, 1.05, 1.15, 1.25]),
   ("sea", [1.05, 1.10, 1.00, 1.00, 1.00, 1.05, 1.05, 1.00, 1.00, 1.00, 1.05, 1.15]),
   ("na", [0.90, 0.90, 0.95, 1.00, 1.00, 1.05, 1.05, 1.00, 0.95, 1.05, 1.20, 1.25]),
   ("sa", [1.10, 1.05, 1.00, 0.95, 0.95, 1.00, 1.05, 1.00, 1.00, 1.05, 1.10, 1.15]),
   ("eu", [0.90, 0.90, 0.95, 1.05, 1.00, 1.00, 1.00, 0.95, 1.00, 1.05, 1.15, 1.25])]

/-- `SEASONALITY_BY_REGION[region].get(month, 1.0)` with integer month keys
1..12 stored positionally. -/
def monthFactor (table : List ℚ) (month : ℤ) : ℚ :=
  if 1 ≤ month ∧ month ≤ 12 then table.getD (month - 1).toNat 1.0 else 1.0

/-- `main.py:114-123` `SPECIAL_EVENTS`: per-region `(month, day)` spike
dates. -/
def SPECIAL_EVENTS : List (String × List (ℤ × ℤ)) :=
  [("korea", [(1,1),(2,1),(2,2),(5,5),(9,15),(9,16),(9,17),(12,25),(12,31)]),
   ("japan", [(1,1),(5,3),(5,4),(5,5),(8,15),(12,25),(12,31)]),
   ("global", [(1,1),(11,24),(11,25),(12,24),(12,25),(12,31)]),
   ("na", [(1,1),(7,4),(11,24),(11,25),(12,24),(12,25),(12,31)]),
   ("eu", [(1,1),(12,24),(12,25),(12,31)]),
   ("china", [(1,1),(2,1),(2,2),(10,1),(10,2),(10,3)]),
   ("sea", [(1,1),(4,13),(4,14),(11,1),(12,25),(12,31)]),
   ("sa", [(1,1),(2,13),(2,14),(12,25),(12,31)])]

/-- Python's global Mersenne Twister is abstracted: an `RNG` is the stream
of upcoming unit draws of the `random` module, and `pySeed n` the stream
that `random.seed(n)` installs — modelled by a linear congruential
generator.  Every theorem below depends only on the stream being a fixed
function of the seed, never on its values. -/
def RNG : Type := ℕ → ℚ

def lcgNext (s : ℕ) : ℕ := (1103515245 * s + 12345) % 2147483648

def lcgIter : ℕ → ℕ → ℕ
  | 0, s => s
  | k + 1, s => lcgIter k (lcgNext s)

def pySeed (n : ℕ) : RNG := fun k => (lcgIter (k + 1) n : ℚ) / 2147483648

/-- `random.uniform(a, b)` as the k-th draw of the stream `u`. -/
def pyUniform (u : RNG) (k : ℕ) (a b : ℚ) : ℚ := a + (b - a) * u k

/-- `main.py:126-169` the body of the per-day seasonality loop: monthly base
factor averaged over regions, weekend/weekday factor (one draw), special
event spikes (one draw per matching region, scanned in region order), the
30-day mega-update window (one draw), and noise (one draw).  Returns the
day's factor and the next draw index. -/
def seasonality_day (u : RNG) (regions : List String) (start : ℤ)
    (day : ℕ) (k0 : ℕ) : ℚ × ℕ :=
  let z := start + day
  let ymd := civilFromDays z
  let month := ymd.2.1
  let dayom := ymd.2.2
  let weekday := pyWeekday z
  let region_factors := regions.filterMap fun region =>
    (dictLookup SEASONALITY_BY_REGION region.toLower).map fun table =>
      monthFactor table month
  let base_factor := if region_factors = [] then 1.0 else npMean region_factors
  let wk : ℚ × ℕ :=
    if weekday = 4 then (1.12 + pyUniform u k0 0 0.05, k0 + 1)
    else if weekday = 5 then (1.18 + pyUniform u k0 0 0.07, k0 + 1)
    else if weekday = 6 then (1.15 + pyUniform u k0 0 0.05, k0 + 1)
    else if weekday = 0 ∨ weekday = 1 then (0.92 + pyUniform u k0 0 0.05, k0 + 1)
    else (1.0 + pyUniform u k0 (-0.02) 0.02, k0 + 1)
  let ev : ℚ × ℕ := regions.foldl (fun acc region =>
    match dictLookup SPECIAL_EVENTS region.toLower with
    | some evs =>
      if (month, dayom) ∈ evs then
        (max acc.1 (1.35 + pyUniform u acc.2 0 0.25), acc.2 + 1)
      else acc
    | none => acc) (1.0, wk.2)
  let ev2 : ℚ × ℕ :=
    if 30 < day ∧ (day % 30 < 3 ∨ 27 < day % 30) then
      (max ev.1 (1.20 + pyUniform u ev.2 0 0.15), ev.2 + 1)
    else ev
  let noise := 1.0 + pyUniform u ev2.2 (-0.03) 0.03
  (base_factor * wk.1 * ev2.1 * noise, ev2.2 + 1)

def seasonality_go (u : RNG) (regions : List String) (start : ℤ) :
    List ℕ → ℕ → List ℚ
  | [], _ => []
  | d :: ds, k =>
    let fk := seasonality_day u regions start d k
    fk.1 :: seasonality_go u regions start ds fk.2

/-- `main.py:95-171` `calculate_seasonality`.  The incoming global generator
state `_g` is accepted and immediately discarded, because the source
re-seeds the module generator with the fixed constant 42
(`random.seed(42)`, `main.py:111`) before any draw.  The launch-date string
is modelled by its parse result (`None` for an unparsable string, which
falls back to 2026-11-12, `main.py:105-108`). -/
def calculate_seasonality (_g : RNG) (regions : List String)
    (launch_date : Option (ℤ × ℤ × ℤ)) (days : ℕ) : List ℚ :=
  let ymd := launch_date.getD (2026, 11, 12)
  let start := daysFromCivil ymd.1 ymd.2.1 ymd.2.2
  seasonality_go (pySeed 42) regions start (List.range days) 0

/-- The source idiom `xs[i] if i < len(xs) else xs[-1]`; `xs[-1]` on an
empty list is an IndexError. -/
def elemOrLast (xs : List ℚ) (i : ℕ) : Except String ℚ :=
  if h : i < xs.length then .ok (xs.get ⟨i, h⟩)
  else
    match xs.getLast? with
    | some v => .ok v
    | none => .error "IndexError"

/-- A Python for-loop that appends one fallible value per element. -/
def exceptMapM {α β : Type} (f : α → Except String β) :
    List α → Except String (List β)
  | [] => .ok []
  | x :: xs => do
    let y ← f x
    let ys ← exceptMapM f xs
    .ok (y :: ys)

/-- `main.py:190-219` `calculate_time_decay_blended_retention`: per-day
time-decay blend of the internal and (quality-adjusted) benchmark curves,
clamped into `[0.001, 1]`. -/
def calculate_time_decay_blended_retention
    (internal_curve benchmark_curve : List ℚ) (days : ℕ)
    (quality_score : ℚ) : Except String (List ℚ) :=
  exceptMapM (fun (day : ℕ) => do
    let weight_internal := calculate_time_decay_weight ((day : ℤ) + 1) (days : ℤ)
    let weight_benchmark := 1 - weight_internal
    let internal_val ← elemOrLast internal_curve day
    let benchmark_val ← elemOrLast benchmark_curve day
    let adjusted_benchmark := benchmark_val * quality_score
    .ok (max (min (internal_val * weight_internal
      + adjusted_benchmark * weight_benchmark) 1.0) 0.001))
    (List.range days)

/-- `main.py:319-334` `calculate_blended_retention` (fixed weight), looping
over the internal curve's length. -/
def calculate_blended_retention (internal_curve benchmark_curve : List ℚ)
    (weight_internal : ℚ) : Except String (List ℚ) :=
  let weight_benchmark := 1 - weight_internal
  exceptMapM (fun i => do
    let internal_val ← elemOrLast internal_curve i
    let benchmark_val ← elemOrLast benchmark_curve i
    .ok (max (min (internal_val * weight_internal
      + benchmark_val * weight_benchmark) 1.0) 0.001))
    (List.range internal_curve.length)

/-- `main.py:336-351` `calculate_blended_pr` (scalar benchmark PR). -/
def calculate_blended_pr (internal_pr : List ℚ) (benchmark_pr : ℚ)
    (weight_internal : ℚ) (days : ℕ) : Except String (List ℚ) :=
  let weight_benchmark := 1 - weight_internal
  exceptMapM (fun i => do
    let internal_val ← elemOrLast internal_pr i
    .ok (max (min (internal_val * weight_internal
      + benchmark_pr * weight_benchmark) 1.0) 0.001))
    (List.range days)

/-- `main.py:353-368` `calculate_blended_arppu` (scalar benchmark ARPPU,
floored at 1000). -/
def calculate_blended_arppu (internal_arppu : List ℚ) (benchmark_arppu : ℚ)
    (weight_internal : ℚ) (days : ℕ) : Except String (List ℚ) :=
  let weight_benchmark := 1 - weight_internal
  exceptMapM (fun i => do
    let internal_val ← elemOrLast internal_arppu i
    .ok (max (internal_val * weight_internal
      + benchmark_arppu * weight_benchmark) 1000))
    (List.range days)

/-- `main.py:224-230` quality grade multipliers. -/
def QUALITY_SCORES : List (String × ℚ) :=
  [("S", 1.2), ("A", 1.1), ("B", 1.0), ("C", 0.9), ("D", 0.8)]

structure BMModifier where
  pr_mod : ℚ
  arppu_mod : ℚ

/-- `main.py:235-241` business-model-type modifiers. -/
def BM_TYPE_MODIFIERS : List (String × BMModifier) :=
  [("Hardcore", ⟨0.5, 2.0⟩), ("Midcore", ⟨1.0, 1.0⟩), ("Casual", ⟨2.0, 0.4⟩),
   ("F2P_Cosmetic", ⟨0.8, 0.6⟩), ("Gacha", ⟨1.5, 1.8⟩)]

structure Benchmark where
  d1 : ℚ
  d7 : ℚ
  d30 : ℚ
  d90 : ℚ
  pr : ℚ
  arppu : ℚ
deriving DecidableEq

/-- `main.py:242-273` `BENCHMARK_DATA`: platform × genre anchor table. -/
def BENCHMARK_DATA : List (String × List (String × Benchmark)) :=
  [("PC",
    [("MMORPG", ⟨0.32, 0.20, 0.11, 0.06, 0.06, 78000⟩),
     ("Action RPG", ⟨0.30, 0.18, 0.09, 0.04, 0.05, 65000⟩),
     ("Battle Royale", ⟨0.35, 0.22, 0.12, 0.07, 0.03, 45000⟩),
     ("Extraction Shooter", ⟨0.28, 0.16, 0.08, 0.04, 0.04, 55000⟩),
     ("FPS/TPS", ⟨0.33, 0.20, 0.10, 0.05, 0.04, 50000⟩),
     ("Strategy", ⟨0.25, 0.15, 0.08, 0.04, 0.07, 85000⟩),
     ("Casual", ⟨0.40, 0.20, 0.08, 0.03, 0.02, 25000⟩),
     ("Sports", ⟨0.30, 0.18, 0.09, 0.04, 0.05, 60000⟩)]),
   ("Mobile",
    [("MMORPG", ⟨0.42, 0.18, 0.07, 0.03, 0.05, 52000⟩),
     ("Action RPG", ⟨0.38, 0.15, 0.06, 0.02, 0.04, 45000⟩),
     ("Battle Royale", ⟨0.45, 0.20, 0.08, 0.04, 0.02, 35000⟩),
     ("Extraction Shooter", ⟨0.35, 0.14, 0.05, 0.02, 0.03, 40000⟩),
     ("FPS/TPS", ⟨0.40, 0.17, 0.07, 0.03, 0.03, 38000⟩),
     ("Strategy", ⟨0.35, 0.16, 0.07, 0.03, 0.06, 68000⟩),
     ("Casual", ⟨0.50, 0.22, 0.09, 0.04, 0.02, 18000⟩),
     ("Sports", ⟨0.38, 0.16, 0.06, 0.02, 0.04, 42000⟩)]),
   ("Console",
    [("MMORPG", ⟨0.35, 0.22, 0.12, 0.06, 0.05, 70000⟩),
     ("Action RPG", ⟨0.33, 0.20, 0.10, 0.05, 0.04, 60000⟩),
     ("Battle Royale", ⟨0.38, 0.24, 0.13, 0.07, 0.02, 40000⟩),
     ("Extraction Shooter", ⟨0.30, 0.18, 0.09, 0.04, 0.03, 50000⟩),
     ("FPS/TPS", ⟨0.36, 0.22, 0.11, 0.06, 0.03, 48000⟩),
     ("Strategy", ⟨0.28, 0.17, 0.09, 0.04, 0.06, 75000⟩),
     ("Casual", ⟨0.42, 0.20, 0.08, 0.03, 0.02, 22000⟩),
     ("Sports", ⟨0.35, 0.20, 0.10, 0.05, 0.05, 55000⟩)])]

/-- `main.py:275-297` `get_benchmark_data`: average the anchors across the
requested platforms; default to PC/MMORPG when nothing matches. -/
def get_benchmark_data (genre : String) (platforms0 : List String) : Benchmark :=
  let platforms := if platforms0 = [] then ["PC"] else platforms0
  let values := platforms.filterMap fun platform =>
    (dictLookup BENCHMARK_DATA platform).bind fun genres => dictLookup genres genre
  if values = [] then ⟨0.32, 0.20, 0.11, 0.06, 0.06, 78000⟩
  else
    ⟨npMean (values.map Benchmark.d1), npMean (values.map Benchmark.d7),
     npMean (values.map Benchmark.d30), npMean (values.map Benchmark.d90),
     npMean (values.map Benchmark.pr), npMean (values.map Benchmark.arppu)⟩

/-- `main.py:299-317` `generate_benchmark_retention_curve`: fit the power
law to the four anchors (abstracted as the oracle `benchFit`, `none` for the
`except` fallback `(d1, -0.5)`), then emit the clamped curve (the
transcendental `np.power(day, b)` is the oracle `npPower`). -/
def generate_benchmark_retention_curve (npPower : ℚ → ℚ → ℚ)
    (benchFit : Benchmark → Option (ℚ × ℚ)) (benchmark : Benchmark)
    (days : ℕ) : List ℚ :=
  let ab := match benchFit benchmark with
    | some p => p
    | none => (benchmark.d1, -0.5)
  (List.range days).map fun (day : ℕ) =>
    max (min (ab.1 * npPower ((day : ℚ) + 1) ab.2) 1.0) 0.001

/-- `main.py:713-716` the valid per-day values across selected games
(`day < len(data)` and `data[day] > 0`). -/
def pattern_day_values (datas : List (List ℚ)) (day : ℕ) : List ℚ :=
  datas.filterMap fun data =>
    if day < data.length ∧ 0 < data.getD day 0 then some (data.getD day 0)
    else none

/-- `main.py:703-722` / `main.py:724-743`: the shared shape of
`calculate_pr_pattern` and `calculate_arppu_pattern` — default series when
no selected game is in the store, else per-day averages over valid values
(with `default_val` for empty days and `floor_val` as minimum), padded with
the last value (or `default_val`) to 365 entries. -/
def calculate_metric_pattern (games : List (String × List ℚ))
    (selected : List String) (default_val floor_val : ℚ) : List ℚ :=
  let valid_games := selected.filter (fun g => (dictLookup games g).isSome)
  if valid_games = [] then List.replicate 365 default_val
  else
    let datas := valid_games.map fun g => (dictLookup games g).getD []
    let min_len := (datas.map List.length).foldr min 365
    let pattern := (List.range min_len).map fun day =>
      let day_values := pattern_day_values datas day
      max (if day_values = [] then default_val else npMean day_values) floor_val
    (pattern ++ List.replicate (365 - pattern.length)
      ((pattern.getLast?).getD default_val)).take 365

/-- `main.py:703-722` `calculate_pr_pattern`. -/
def calculate_pr_pattern (pr_games : List (String × List ℚ))
    (selected : List String) : List ℚ :=
  calculate_metric_pattern pr_games selected 0.02 0.001

/-- `main.py:724-743` `calculate_arppu_pattern`. -/
def calculate_arppu_pattern (arppu_games : List (String × List ℚ))
    (selected : List String) : List ℚ :=
  calculate_metric_pattern arppu_games selected 50000 1000

/-- `main.py:520-539` `calculate_organic_boost`
(`1 + ln(1 + brand/ua)·0.7`, capped at 3; `np.log` is the oracle `npLog`). -/
def calculate_organic_boost (npLog : ℚ → ℚ) (brand_budget ua_budget : ℤ) : ℚ :=
  if ua_budget ≤ 0 then 1.0
  else
    let ratio : ℚ := (brand_budget : ℚ) / (ua_budget : ℚ)
    min (1.0 + npLog (1 + ratio) * 0.7) 3.0

/-- Python `round(x, n)`: round half to even (applied here to the exact
rational value; the source rounds floats). -/
def roundHalfEven (x : ℚ) : ℤ :=
  let f := Rat.floor x
  let r := x - f
  if r < 1/2 then f
  else if 1/2 < r then f + 1
  else if Int.emod f 2 = 0 then f else f + 1

def pyRound (x : ℚ) (n : ℕ) : ℚ := (roundHalfEven (x * 10 ^ n) : ℚ) / 10 ^ n

structure V85Result where
  nru_series : List ℤ
  paid_nru_total : ℤ
  organic_nru_total : ℤ
  organic_boost : ℚ
  meta_effective_cpa : ℤ
  meta_cpa_saturation_factor : ℚ
  meta_pre_launch_users : ℤ
  meta_wishlist_users : ℤ
  meta_d1_burst_users : ℤ
  meta_post_launch_paid_nru : ℤ
  meta_organic_boost_factor : ℚ
  meta_brand_time_lag_peak_day : ℤ

/-- `main.py:542-701` `generate_nru_series_v85`: CPA saturation, pre-launch
reservoir burst (80/10/10), area-normalized post-launch window, organic NRU
under the (optional) bell-shaped brand time-lag curve, sustaining decay from
5% of day-30, and the global floor of 5 users/day.  `pow08` abstracts
`t ** 0.8`, `expf` the `exp` calls, `npLog` the `np.log` inside
`calculate_organic_boost`. -/
def generate_nru_series_v85 (pow08 : ℕ → ℚ) (expf npLog : ℚ → ℚ)
    (ua_budget brand_budget target_cpa : ℤ) (base_organic_ratio : ℚ)
    (days launch_period : ℕ)
    (pre_marketing_ratio wishlist_conversion_rate : ℚ)
    (cpa_saturation_enabled brand_time_lag_enabled : Bool) : V85Result :=
  let satf : ℚ :=
    if cpa_saturation_enabled = true ∧ 0 < ua_budget then saturation_factor ua_budget
    else 1.0
  let eff_cpa : ℤ := effective_cpa cpa_saturation_enabled ua_budget target_cpa
  let pre_launch_ua := pyInt ((ua_budget : ℚ) * pre_marketing_ratio)
  let post_launch_ua := ua_budget - pre_launch_ua
  let pre_launch_paid_nru :=
    if 0 < eff_cpa then pyFloorDiv pre_launch_ua eff_cpa else 0
  let post_launch_paid_nru :=
    if 0 < eff_cpa then pyFloorDiv post_launch_ua eff_cpa else 0
  let organic_boost := calculate_organic_boost npLog brand_budget ua_budget
  let total_paid_nru := pre_launch_paid_nru + post_launch_paid_nru
  let effective_organic_ratio := base_organic_ratio * organic_boost
  let organic_nru_total := pyInt ((total_paid_nru : ℚ) * effective_organic_ratio)
  let wishlist_users :=
    if 0 < wishlist_conversion_rate then
      pyInt ((pre_launch_paid_nru : ℚ) / wishlist_conversion_rate)
    else 0
  let d1_burst_users := pyInt ((wishlist_users : ℚ) * wishlist_conversion_rate)
  let burst_distribution : List ℚ := [0.80, 0.10, 0.10]
  let brand_effect_curve : List ℚ :=
    if brand_time_lag_enabled = true ∧ 0 < brand_budget then
      let raw := (List.range days).map fun (day : ℕ) =>
        expf (-(1/2) * ((((day : ℚ) - 15) / 20) ^ 2))
      let total_effect := raw.sum
      if 0 < total_effect then raw.map (fun e => e / total_effect)
      else List.replicate days 0
    else
      (List.range days).map fun i => if i < 30 then 1.0 / 30 else 0
  let burst_add : List ℤ := (List.range days).map fun i =>
    if i < burst_distribution.length then
      pyInt ((d1_burst_users : ℚ) * burst_distribution.getD i 0)
    else 0
  let post_add : List ℤ :=
    post_launch_distribution pow08 post_launch_paid_nru launch_period days
      ++ List.replicate (days - min launch_period days) 0
  let organic_add : List ℤ := (List.range days).map fun day =>
    pyInt ((organic_nru_total : ℚ) * brand_effect_curve.getD day 0)
  let series1 : List ℤ :=
    List.zipWith (· + ·) (List.zipWith (· + ·) burst_add post_add) organic_add
  let d30_nru : ℤ := if 29 < series1.length then series1.getD 29 0 else 100
  let base_sustaining_nru := pyInt ((d30_nru : ℚ) * 0.05)
  let sustaining_add : List ℤ := (List.range days).map fun day =>
    if launch_period ≤ day then
      max (pyInt ((base_sustaining_nru : ℚ)
        * expf (-(1/10) * (((day - launch_period : ℕ) : ℚ) / 30)))) 5
    else 0
  let series2 := List.zipWith (· + ·) series1 sustaining_add
  let series3 := series2.map (fun n => max n 5)
  { nru_series := series3.take days
    paid_nru_total := total_paid_nru
    organic_nru_total := organic_nru_total
    organic_boost := organic_boost
    meta_effective_cpa := eff_cpa
    meta_cpa_saturation_factor := pyRound satf 3
    meta_pre_launch_users := pre_launch_paid_nru
    meta_wishlist_users := wishlist_users
    meta_d1_burst_users := d1_burst_users
    meta_post_launch_paid_nru := post_launch_paid_nru
    meta_organic_boost_factor := pyRound organic_boost 2
    meta_brand_time_lag_peak_day := if brand_time_lag_enabled then 15 else 1 }

/-- `main.py:772-793` `calculate_revenue`:
`revenue[i] = dau[i] · pr[i] · (arppu[i]/30)` with the `[-1]` fallback on
the PR and ARPPU series. -/
def calculate_revenue (dau : List ℤ) (pr arppu : List ℚ) :
    Except String (List ℚ) :=
  exceptMapM (fun (i : ℕ) => do
    let pr_val ← elemOrLast pr i
    let arppu_val ← elemOrLast arppu i
    let daily_arppu := arppu_val / 30
    .ok (((dau.getD i 0 : ℤ) : ℚ) * pr_val * daily_arppu))
    (List.range dau.length)

/-- The transcendental/optimizer collaborators of the engine, abstracted:
`npPower x b` is `np.power(x, b)`, `pow08 t` is `t ** 0.8`, `expf` the `exp`
calls, `npLog` is `np.log`, `retFit` the `curve_fit` call inside
`fit_retention_curve` (`none` = exception), `benchFit` the `curve_fit` call
inside `generate_benchmark_retention_curve` (`none` = exception). -/
structure Oracles where
  npPower : ℚ → ℚ → ℚ
  pow08 : ℕ → ℚ
  expf : ℚ → ℚ
  npLog : ℚ → ℚ
  retFit : List ℚ → Option (ℚ × ℚ)
  benchFit : Benchmark → Option (ℚ × ℚ)

/-- `raw_game_data.json`: the read-only historical store,
`games.{retention, nru, payment_rate, arppu}` name → series. -/
structure RawData where
  retention : List (String × List ℚ)
  nru : List (String × List ℚ)
  payment_rate : List (String × List ℚ)
  arppu : List (String × List ℚ)

/-- `main.py:40-42` `RetentionInput` (dictionaries as association lists). -/
structure RetentionInput where
  selected_games : List String
  target_d1_retention : List (String × ℚ)

/-- `main.py:44-59` `NRUInput`; `d1_nru` and `adjustment` are dictionaries,
the optional fields keep their `None`-ness (`x or default` semantics are
applied at the use sites, as in the source). -/
structure NRUInput where
  selected_games : List String
  d1_nru : List (String × ℤ)
  adjustment : List (String × ℚ)
  ua_budget : Option ℤ
  brand_budget : Option ℤ
  target_cpa : Option ℤ
  base_organic_ratio : Option ℚ
  pre_marketing_ratio : Option ℚ
  wishlist_conversion_rate : Option ℚ
  cpa_saturation_enabled : Option Bool
  brand_time_lag_enabled : Option Bool

/-- `main.py:61-65` `RevenueInput`. -/
structure RevenueInput where
  selected_games_pr : List String
  selected_games_arppu : List String
  pr_adjustment : List (String × ℚ)
  arppu_adjustment : List (String × ℚ)

/-- `main.py:1091-1096` the recognized keys of the `blending` dictionary. -/
structure BlendingConfig where
  weight : Option ℚ
  genre : Option String
  platforms : Option (List String)
  benchmark_only : Option Bool
  time_decay : Option Bool

/-- `main.py:67-79` `ProjectionInput`.  The `launch_date` string is modelled
by its parse result (`none` = unparsable, `main.py:105-108` falls back to
2026-11-12); a negative `projection_days` behaves identically to `0` (every
`range` is empty), so the horizon is modelled as `ℕ`. -/
structure ProjectionInput where
  launch_date : Option (ℤ × ℤ × ℤ)
  projection_days : ℕ
  retention : RetentionInput
  nru : NRUInput
  revenue : RevenueInput
  basic_settings : Option (List (String × ℚ))
  blending : Option BlendingConfig
  quality_score : Option String
  bm_type : Option String
  regions : Option (List String)

/-- Python `value or default` for an optional int field: a missing field and
the falsy value `0` both fall back. -/
def pyOrInt (v : Option ℤ) (default : ℤ) : ℤ :=
  match v with
  | some n => if n = 0 then default else n
  | none => default

/-- Python `value or default` for an optional float field. -/
def pyOrRat (v : Option ℚ) (default : ℚ) : ℚ :=
  match v with
  | some q => if q = 0 then default else q
  | none => default

/-- Python `value or default` for an optional string (empty string is
falsy). -/
def pyOrStr (v : Option String) (default : String) : String :=
  match v with
  | some s => if s = "" then default else s
  | none => default

/-- Python `value or default` for an optional list (empty list is falsy). -/
def pyOrList {α : Type} (v : Option (List α)) (default : List α) : List α :=
  match v with
  | some l => if l.isEmpty then default else l
  | none => default

/-- `int(max(xs))` — `max()` of an empty sequence is a ValueError. -/
def pyMax (xs : List ℤ) : Except String ℤ :=
  match xs.max? with
  | some m => .ok m
  | none => .error "ValueError: max of empty sequence"

/-- `np.mean` bound inside the scenario body: an empty series produces NaN,
unrepresentable in `ℚ`, modelled as an error (on every input reaching it the
source has already raised at `max()` when the horizon is empty). -/
def npMeanE (xs : List ℚ) : Except String ℚ :=
  if xs.length = 0 then .error "nan" else .ok (npMean xs)

/-- `main.py:1184-1197` the v8.5 meta block recorded for the "normal"
scenario. -/
structure V85NruMeta where
  paid_nru : ℤ
  organic_nru : ℤ
  organic_boost_factor : ℚ
  total_nru : ℤ
  effective_cpa : ℤ
  cpa_saturation_factor : ℚ
  pre_launch_users : ℤ
  wishlist_users : ℤ
  d1_burst_users : ℤ
  brand_time_lag_peak_day : ℤ

/-- `main.py:1244-1277` the per-scenario block of `results`. -/
structure ScenarioResult where
  retention_a : ℚ
  retention_b : ℚ
  target_d1 : ℚ
  retention_curve90 : List ℚ
  d1_nru : ℤ
  nru_series90 : List ℤ
  nru_total : ℤ
  nru_paid : ℤ
  nru_organic : ℤ
  dau_series90 : List ℤ
  dau_peak : ℤ
  dau_average : ℤ
  pr_series90 : List ℚ
  arppu_series90 : List ℚ
  daily_revenue90 : List ℚ
  total_gross : ℚ
  average_daily : ℚ
  full_nru : List ℤ
  full_dau : List ℤ
  full_revenue : List ℚ
  full_retention : List ℚ
  full_pr : List ℚ
  full_arppu : List ℚ

/-- `main.py:1132-1147` the three-way retention-curve selection
(time-decay blend / fixed blend / pure benchmark). -/
def scenario_ret_curve (use_time_decay use_benchmark_only : Bool)
    (internal_ret_curve benchmark_ret_curve : List ℚ)
    (benchmark_scale base_weight quality_multiplier : ℚ) (days : ℕ) :
    Except String (List ℚ) :=
  if use_time_decay = true ∧ ¬ use_benchmark_only = true then
    let scaled := benchmark_ret_curve.map fun r => min (r * benchmark_scale) 1.0
    calculate_time_decay_blended_retention internal_ret_curve scaled days
      quality_multiplier
  else if ¬ use_benchmark_only = true then
    let scaled := benchmark_ret_curve.map fun r => min (r * benchmark_scale) 1.0
    calculate_blended_retention internal_ret_curve scaled base_weight
  else
    Except.ok (benchmark_ret_curve.map fun r =>
      min (r * benchmark_scale * quality_multiplier) 1.0)

/-- `main.py:1152-1155` the scenario NRU adjustment ratio. -/
def scenario_nru_adj (inp : ProjectionInput) (scenario : String) : ℚ :=
  if scenario = "best" then dictGetD inp.nru.adjustment "best_vs_normal" 0
  else if scenario = "worst" then dictGetD inp.nru.adjustment "worst_vs_normal" 0
  else 0

/-- `main.py:1163-1181` the v8.5 branch, taken when `ua_budget > 0` (with
the per-scenario ±10% budget multiplier; the `sustaining_budget_monthly`
argument read at `main.py:1170` is unused inside
`generate_nru_series_v85` and is omitted). -/
def scenario_v85 (O : Oracles) (inp : ProjectionInput) (days : ℕ)
    (scenario : String) : Option V85Result :=
  let ua_budget := pyOrInt inp.nru.ua_budget 0
  if 0 < ua_budget then
    let brand_budget := pyOrInt inp.nru.brand_budget 0
    let target_cpa := pyOrInt inp.nru.target_cpa 2000
    let base_organic_ratio := pyOrRat inp.nru.base_organic_ratio 0.2
    let scenario_mult : ℚ :=
      if scenario = "best" then 1.1 else if scenario = "worst" then 0.9 else 1.0
    let adj_ua := pyInt ((ua_budget : ℚ) * scenario_mult)
    let adj_brand := pyInt ((brand_budget : ℚ) * scenario_mult)
    let pre_marketing_ratio := pyOrRat inp.nru.pre_marketing_ratio 0.0
    let wishlist_conversion_rate := pyOrRat inp.nru.wishlist_conversion_rate 0.15
    let cpa_sat := (inp.nru.cpa_saturation_enabled).getD true
    let brand_lag := (inp.nru.brand_time_lag_enabled).getD true
    some (generate_nru_series_v85 O.pow08 O.expf O.npLog adj_ua adj_brand
      target_cpa base_organic_ratio days 30 pre_marketing_ratio
      wishlist_conversion_rate cpa_sat brand_lag)
  else none

/-- `main.py:1163-1201` the scenario's raw NRU series: the v8.5 path when a
UA budget is set, else the legacy `generate_nru_series(adjusted_d1_nru, [],
days)` path. -/
def scenario_nru_base (O : Oracles) (inp : ProjectionInput) (days : ℕ)
    (scenario : String) (d1_nru : ℤ) : List ℤ :=
  match scenario_v85 O inp days scenario with
  | some r => r.nru_series
  | none =>
    let adjusted_d1_nru := pyInt ((d1_nru : ℚ) * (1 + scenario_nru_adj inp scenario))
    generate_nru_series O.pow08 O.expf adjusted_d1_nru days 30 0.1

/-- `main.py:1214-1221` the PR series before the scenario adjustment. -/
def scenario_pr_base (use_benchmark_only : Bool) (pr_pattern : List ℚ)
    (benchmark_pr quality_multiplier base_weight : ℚ) (days : ℕ) :
    Except String (List ℚ) :=
  if ¬ use_benchmark_only = true then
    calculate_blended_pr pr_pattern (benchmark_pr * quality_multiplier)
      base_weight days
  else Except.ok (List.replicate days (benchmark_pr * quality_multiplier))

/-- `main.py:1229-1236` the ARPPU series before the scenario adjustment. -/
def scenario_arppu_base (use_benchmark_only : Bool) (arppu_pattern : List ℚ)
    (benchmark_arppu quality_multiplier base_weight : ℚ) (days : ℕ) :
    Except String (List ℚ) :=
  if ¬ use_benchmark_only = true then
    calculate_blended_arppu arppu_pattern (benchmark_arppu * quality_multiplier)
      base_weight days
  else Except.ok (List.replicate days (benchmark_arppu * quality_multiplier))

/-- `main.py:1125-1277` one iteration of the best/normal/worst scenario
loop.  The required dictionary accesses `target_d1_retention[scenario]` and
`d1_nru[scenario]` are the two KeyError sites. -/
def projection_scenario (O : Oracles) (inp : ProjectionInput)
    (seasonality_factors : List ℚ) (base_weight : ℚ)
    (use_benchmark_only use_time_decay : Bool) (quality_multiplier : ℚ)
    (benchmark : Benchmark) (benchmark_ret_curve : List ℚ) (a b : ℚ)
    (pr_pattern arppu_pattern : List ℚ) (days : ℕ) (scenario : String) :
    Except String (ScenarioResult × Option V85NruMeta) := do
  let target_d1 ← match dictLookup inp.retention.target_d1_retention scenario with
    | some v => Except.ok v
    | none => Except.error "KeyError: target_d1_retention"
  let internal_ret_curve :=
    generate_retention_curve (fun x => O.npPower ((x : ℕ) : ℚ) b) a target_d1 days
  let benchmark_scale := if 0 < benchmark.d1 then target_d1 / benchmark.d1 else 1.0
  let ret_curve ← scenario_ret_curve use_time_decay use_benchmark_only
    internal_ret_curve benchmark_ret_curve benchmark_scale base_weight
    quality_multiplier days
  let d1_nru ← match dictLookup inp.nru.d1_nru scenario with
    | some v => Except.ok v
    | none => Except.error "KeyError: d1_nru"
  let v85 : Option V85Result := scenario_v85 O inp days scenario
  let nru_series0 : List ℤ := scenario_nru_base O inp days scenario d1_nru
  let nru_series := List.zipWith (fun (nru : ℤ) (sf : ℚ) => pyInt ((nru : ℚ) * sf))
    nru_series0 seasonality_factors
  let dau_series := calculate_dau_matrix nru_series ret_curve days
  let pr_adj : ℚ :=
    if scenario = "best" then dictGetD inp.revenue.pr_adjustment "best_vs_normal" 0
    else if scenario = "worst" then dictGetD inp.revenue.pr_adjustment "worst_vs_normal" 0
    else 0
  let pr_series0 ← scenario_pr_base use_benchmark_only pr_pattern benchmark.pr
    quality_multiplier base_weight days
  let pr_series := pr_series0.map fun p => p * (1 + pr_adj)
  let arppu_adj : ℚ :=
    if scenario = "best" then dictGetD inp.revenue.arppu_adjustment "best_vs_normal" 0
    else if scenario = "worst" then dictGetD inp.revenue.arppu_adjustment "worst_vs_normal" 0
    else 0
  let arppu_series0 ← scenario_arppu_base use_benchmark_only arppu_pattern
    benchmark.arppu quality_multiplier base_weight days
  let arppu_series1 := arppu_series0.map fun v => v * (1 + arppu_adj)
  let arppu_series := List.zipWith (fun (v : ℚ) (sf : ℚ) => v * sf)
    arppu_series1 seasonality_factors
  let revenue_series ← calculate_revenue dau_series pr_series arppu_series
  let peak ← pyMax dau_series
  let dau_avg ← npMeanE (dau_series.map (fun (n : ℤ) => (n : ℚ)))
  let rev_avg ← npMeanE revenue_series
  let result : ScenarioResult := {
    retention_a := a
    retention_b := b
    target_d1 := target_d1
    retention_curve90 := ret_curve.take 90
    d1_nru := d1_nru
    nru_series90 := nru_series.take 90
    nru_total := nru_series.sum
    nru_paid := match v85 with
      | some r => r.paid_nru_total
      | none => nru_series.sum
    nru_organic := match v85 with
      | some r => r.organic_nru_total
      | none => 0
    dau_series90 := dau_series.take 90
    dau_peak := peak
    dau_average := pyInt dau_avg
    pr_series90 := pr_series.take 90
    arppu_series90 := arppu_series.take 90
    daily_revenue90 := revenue_series.take 90
    total_gross := revenue_series.sum
    average_daily := rev_avg
    full_nru := nru_series
    full_dau := dau_series
    full_revenue := revenue_series
    full_retention := ret_curve
    full_pr := pr_series
    full_arppu := arppu_series }
  let meta : Option V85NruMeta :=
    if scenario = "normal" then
      match v85 with
      | some r => some {
          paid_nru := r.paid_nru_total
          organic_nru := r.organic_nru_total
          organic_boost_factor := pyRound r.organic_boost 2
          total_nru := r.paid_nru_total + r.organic_nru_total
          effective_cpa := r.meta_effective_cpa
          cpa_saturation_factor := r.meta_cpa_saturation_factor
          pre_launch_users := r.meta_pre_launch_users
          wishlist_users := r.meta_wishlist_users
          d1_burst_users := r.meta_d1_burst_users
          brand_time_lag_peak_day := r.meta_brand_time_lag_peak_day }
      | none => none
    else none
  Except.ok (result, meta)

/-- `main.py:1315-1328` the per-scenario summary block. -/
structure ScenarioSummary where
  gross_revenue : ℚ
  net_revenue : ℚ
  total_nru : ℤ
  peak_dau : ℤ
  average_dau : ℤ
  average_daily_revenue : ℚ
  paid_roas : ℚ
  blended_roas : ℚ
  ltv : ℚ
  cac_paid : ℚ
  cac_blended : ℚ

/-- `main.py:1291-1328` the summary computation for one scenario: net
revenue after fee/VAT/infra ratios, ROAS, LTV and CAC with every division
guarded by an `if divisor > 0 ... else 0` branch (not a floored divisor). -/
def scenario_summary (basic : List (String × ℚ)) (ua_budget : ℤ)
    (total_marketing_budget : ℚ) (r : ScenarioResult) : ScenarioSummary :=
  let gross := r.total_gross
  let market_fee := dictGetD basic "market_fee_ratio" 0.3
  let vat := dictGetD basic "vat_ratio" 0.1
  let infra := dictGetD basic "infrastructure_cost_ratio" 0.03
  let net := gross * (1 - market_fee - vat - infra)
  let paid_roas := if 0 < ua_budget then gross / (ua_budget : ℚ) * 100 else 0
  let blended_roas :=
    if 0 < total_marketing_budget then gross / total_marketing_budget * 100 else 0
  let total_nru := r.nru_total
  let paid_nru_count := r.nru_paid
  let ltv := if 0 < total_nru then gross / (total_nru : ℚ) else 0
  let cac_paid :=
    if 0 < paid_nru_count then (ua_budget : ℚ) / (paid_nru_count : ℚ) else 0
  let cac_blended :=
    if 0 < total_nru then total_marketing_budget / (total_nru : ℚ) else 0
  { gross_revenue := gross
    net_revenue := net
    total_nru := total_nru
    peak_dau := r.dau_peak
    average_dau := r.dau_average
    average_daily_revenue := r.average_daily
    paid_roas := pyRound paid_roas 1
    blended_roas := pyRound blended_roas 1
    ltv := pyRound ltv 0
    cac_paid := pyRound cac_paid 0
    cac_blended := pyRound cac_blended 0 }

/-- `main.py:1331-1350` the v8.5 marketing-analysis block. -/
structure MarketingAnalysis where
  ua_budget : ℤ
  brand_budget : ℤ
  sustaining_budget_annual : ℚ
  total_marketing_budget : ℚ
  organic_boost_factor : ℚ
  ua_ratio : ℚ
  brand_ratio : ℚ
  sustaining_share : ℚ
  nru_analysis : Option V85NruMeta

/-- `main.py:1352-1382` the response payload of the engine (HTTP envelope
fields and input echoes omitted). -/
structure ProjectionResult where
  best : ScenarioResult
  normal : ScenarioResult
  worst : ScenarioResult
  summary_best : ScenarioSummary
  summary_normal : ScenarioSummary
  summary_worst : ScenarioSummary
  v85_marketing : MarketingAnalysis
  seasonality : List ℚ
  base_weight : ℚ
  quality_multiplier : ℚ

/-- The values `main.py:1088-1123` computes once before the scenario loop:
blending settings, quality/BM modifiers, seasonality, the (modified)
benchmark block and its curve, fitted coefficients, and the PR/ARPPU
patterns. -/
structure ScenarioEnv where
  seasonality : List ℚ
  base_weight : ℚ
  use_benchmark_only : Bool
  use_time_decay : Bool
  quality_multiplier : ℚ
  benchmark : Benchmark
  benchmark_ret_curve : List ℚ
  coeff_a : ℚ
  coeff_b : ℚ
  pr_pattern : List ℚ
  arppu_pattern : List ℚ

/-- `main.py:1088-1123` the pre-loop setup of `calculate_projection`. -/
def projection_env (O : Oracles) (raw : RawData) (g : RNG)
    (inp : ProjectionInput) : ScenarioEnv :=
  let days := inp.projection_days
  let blending := inp.blending.getD ⟨none, none, none, none, none⟩
  let base_weight0 := blending.weight.getD 0.7
  let genre := blending.genre.getD "MMORPG"
  let platforms := blending.platforms.getD ["PC"]
  let use_benchmark_only0 := blending.benchmark_only.getD false
  let use_time_decay := blending.time_decay.getD true
  let quality_grade := pyOrStr inp.quality_score "B"
  let quality_multiplier := dictGetD QUALITY_SCORES quality_grade 1.0
  let bm_type := pyOrStr inp.bm_type "Midcore"
  let bm_modifier := dictGetD BM_TYPE_MODIFIERS bm_type ⟨1.0, 1.0⟩
  let regions := pyOrList inp.regions ["global"]
  let seasonality_factors := calculate_seasonality g regions inp.launch_date days
  let has_sample_games := decide (inp.retention.selected_games ≠ [])
  let base_weight := if has_sample_games then base_weight0 else 0.0
  let use_benchmark_only := if has_sample_games then use_benchmark_only0 else true
  let benchmark0 := get_benchmark_data genre platforms
  let benchmark : Benchmark := { benchmark0 with
    pr := benchmark0.pr * bm_modifier.pr_mod
    arppu := benchmark0.arppu * bm_modifier.arppu_mod }
  let benchmark_ret_curve :=
    generate_benchmark_retention_curve O.npPower O.benchFit benchmark days
  let ab := calculate_retention_coefficients O.retFit raw.retention
    inp.retention.selected_games
  { seasonality := seasonality_factors
    base_weight := base_weight
    use_benchmark_only := use_benchmark_only
    use_time_decay := use_time_decay
    quality_multiplier := quality_multiplier
    benchmark := benchmark
    benchmark_ret_curve := benchmark_ret_curve
    coeff_a := ab.1
    coeff_b := ab.2
    pr_pattern := calculate_pr_pattern raw.payment_rate
      inp.revenue.selected_games_pr
    arppu_pattern := calculate_arppu_pattern raw.arppu
      inp.revenue.selected_games_arppu }

/-- `main.py:1082-1382` `calculate_projection`: the full engine.
`config_basic_settings` is the `basic_settings` object of
`default_config.json`, used when the request carries none
(`main.py:1285`). -/
def calculate_projection (O : Oracles) (raw : RawData)
    (config_basic_settings : List (String × ℚ)) (g : RNG)
    (inp : ProjectionInput) : Except String ProjectionResult := do
  let days := inp.projection_days
  let E := projection_env O raw g inp
  let rbest ← projection_scenario O inp E.seasonality E.base_weight
    E.use_benchmark_only E.use_time_decay E.quality_multiplier E.benchmark
    E.benchmark_ret_curve E.coeff_a E.coeff_b E.pr_pattern E.arppu_pattern
    days "best"
  let rnormal ← projection_scenario O inp E.seasonality E.base_weight
    E.use_benchmark_only E.use_time_decay E.quality_multiplier E.benchmark
    E.benchmark_ret_curve E.coeff_a E.coeff_b E.pr_pattern E.arppu_pattern
    days "normal"
  let rworst ← projection_scenario O inp E.seasonality E.base_weight
    E.use_benchmark_only E.use_time_decay E.quality_multiplier E.benchmark
    E.benchmark_ret_curve E.coeff_a E.coeff_b E.pr_pattern E.arppu_pattern
    days "worst"
  let ua_budget := pyOrInt inp.nru.ua_budget 0
  let brand_budget := pyOrInt inp.nru.brand_budget 0
  let basic : List (String × ℚ) :=
    match inp.basic_settings with
    | some bs => if bs.isEmpty then config_basic_settings else bs
    | none => config_basic_settings
  let sustaining_monthly := dictGetD basic "sustaining_mkt_budget_monthly" 0
  let total_sustaining := sustaining_monthly * 12
  let total_marketing_budget : ℚ :=
    (ua_budget : ℚ) + (brand_budget : ℚ) + total_sustaining
  let v85_marketing : MarketingAnalysis := {
    ua_budget := ua_budget
    brand_budget := brand_budget
    sustaining_budget_annual := total_sustaining
    total_marketing_budget := total_marketing_budget
    organic_boost_factor :=
      if 0 < ua_budget then
        pyRound (calculate_organic_boost O.npLog brand_budget ua_budget) 2
      else 1.0
    ua_ratio :=
      if 0 < total_marketing_budget then
        pyRound ((ua_budget : ℚ) / total_marketing_budget * 100) 1
      else 0
    brand_ratio :=
      if 0 < total_marketing_budget then
        pyRound ((brand_budget : ℚ) / total_marketing_budget * 100) 1
      else 0
    sustaining_share :=
      if 0 < total_marketing_budget then
        pyRound (total_sustaining / total_marketing_budget * 100) 1
      else 0
    nru_analysis := rnormal.2 }
  Except.ok {
    best := rbest.1
    normal := rnormal.1
    worst := rworst.1
    summary_best := scenario_summary basic ua_budget total_marketing_budget rbest.1
    summary_normal := scenario_summary basic ua_budget total_marketing_budget rnormal.1
    summary_worst := scenario_summary basic ua_budget total_marketing_budget rworst.1
    v85_marketing := v85_marketing
    seasonality := E.seasonality
    base_weight := E.base_weight
    quality_multiplier := E.quality_multiplier }

/-- C10: `calculate_seasonality` re-seeds the module generator with the
fixed constant 42 before any draw, so its output — and with it the whole
projection — is independent of the incoming generator state: two calls with
identical `(regions, launch_date, days)` (resp. identical requests) return
element-wise equal results whatever the prior RNG state was. -/
theorem seasonality_deterministic (g1 g2 : RNG) (regions : List String)
    (launch_date : Option (ℤ × ℤ × ℤ)) (days : ℕ) (O : Oracles)
    (raw : RawData) (cfg : List (String × ℚ)) (inp : ProjectionInput) :
    calculate_seasonality g1 regions launch_date days
      = calculate_seasonality g2 regions launch_date days ∧
    calculate_projection O raw cfg g1 inp
      = calculate_projection O raw cfg g2 inp :=
  ⟨rfl, rfl⟩

/-- The claim's CAC(paid) formula, following the spec's words (§4.7): total
paid UA budget over total paid new users with a "minimum divisor 1". -/
def cac_paid_spec (ua_budget paid_nru_count : ℤ) : ℚ :=
  (ua_budget : ℚ) / ((max paid_nru_count 1 : ℤ) : ℚ)

theorem pyRound_zero (n : ℕ) : pyRound 0 n = 0 := by
  have h : roundHalfEven 0 = 0 := by
    rw [roundHalfEven]
    norm_num [Rat.floor_def']
  rw [pyRound]
  norm_num [h]

/-- A scenario block with zero paid users, as produced e.g. by ua_budget =
1000 with the default target CPA 2000 (`1000 // 2000 = 0` paid users, with
`pre_marketing_ratio = 0`). -/
def zero_paid_scenario : ScenarioResult :=
  { retention_a := 1, retention_b := -0.5, target_d1 := 0.4,
    retention_curve90 := [], d1_nru := 0, nru_series90 := [], nru_total := 0,
    nru_paid := 0, nru_organic := 0, dau_series90 := [], dau_peak := 0,
    dau_average := 0, pr_series90 := [], arppu_series90 := [],
    daily_revenue90 := [], total_gross := 0, average_daily := 0,
    full_nru := [], full_dau := [], full_revenue := [], full_retention := [],
    full_pr := [], full_arppu := [] }

/-- C6 counterexample: with a paid-user count of 0 and a UA budget of 1000,
the code's `cac_paid` is `0` (the divisor is guarded, `if count > 0 else
0`), while the claimed floored-divisor formula gives `1000/max(0,1) = 1000`:
the summary does not floor divisors at 1. -/
theorem cac_paid_not_floored_cex :
    (scenario_summary [] 1000 1000 zero_paid_scenario).cac_paid = 0 ∧
    cac_paid_spec 1000 0 = 1000 ∧ (0 : ℚ) ≠ 1000 := by
  refine ⟨?_, ?_, by norm_num⟩
  · show pyRound (if (0 : ℤ) < zero_paid_scenario.nru_paid
      then ((1000 : ℤ) : ℚ) / ((zero_paid_scenario.nru_paid : ℤ) : ℚ) else 0) 0 = 0
    rw [if_neg (by norm_num [zero_paid_scenario])]
    exact pyRound_zero 0
  · rw [cac_paid_spec]
    norm_num

/-- C6 amended: every divisor of the summary block is guarded by an
`if divisor > 0 then divide else 0` branch (never a divisor floored at 1):
CAC(paid) is `round(uaBudget / paidNru, 0)` when the paid count is positive
and `0` otherwise, and the same guard-else-zero policy holds for paid ROAS,
blended ROAS, LTV, and CAC(blended) — a zero divisor yields 0, never a
fault. -/
theorem scenario_summary_division_policy (basic : List (String × ℚ))
    (ua : ℤ) (tm : ℚ) (r : ScenarioResult) :
    ((scenario_summary basic ua tm r).cac_paid
      = if 0 < r.nru_paid then pyRound ((ua : ℚ) / (r.nru_paid : ℚ)) 0 else 0) ∧
    ((scenario_summary basic ua tm r).paid_roas
      = if 0 < ua then pyRound (r.total_gross / (ua : ℚ) * 100) 1 else 0) ∧
    ((scenario_summary basic ua tm r).blended_roas
      = if 0 < tm then pyRound (r.total_gross / tm * 100) 1 else 0) ∧
    ((scenario_summary basic ua tm r).ltv
      = if 0 < r.nru_total then pyRound (r.total_gross / (r.nru_total : ℚ)) 0 else 0) ∧
    ((scenario_summary basic ua tm r).cac_blended
      = if 0 < r.nru_total then pyRound (tm / (r.nru_total : ℚ)) 0 else 0) := by
  have h1 : (scenario_summary basic ua tm r).cac_paid
      = pyRound (if 0 < r.nru_paid then (ua : ℚ) / (r.nru_paid : ℚ) else 0) 0 := rfl
  have h2 : (scenario_summary basic ua tm r).paid_roas
      = pyRound (if 0 < ua then r.total_gross / (ua : ℚ) * 100 else 0) 1 := rfl
  have h3 : (scenario_summary basic ua tm r).blended_roas
      = pyRound (if 0 < tm then r.total_gross / tm * 100 else 0) 1 := rfl
  have h4 : (scenario_summary basic ua tm r).ltv
      = pyRound (if 0 < r.nru_total then r.total_gross / (r.nru_total : ℚ) else 0) 0 := rfl
  have h5 : (scenario_summary basic ua tm r).cac_blended
      = pyRound (if 0 < r.nru_total then tm / (r.nru_total : ℚ) else 0) 0 := rfl
  rw [h1, h2, h3, h4, h5]
  refine ⟨?_, ?_, ?_, ?_, ?_⟩ <;> (split <;> simp [pyRound_zero])

/-- Placeholder collaborators for the concrete counterexample run (the error
below is raised before any of them can influence the result). -/
def cex_oracles : Oracles :=
  ⟨fun _ _ => 1, fun _ => 1, fun _ => 1, fun _ => 1, fun _ => none, fun _ => none⟩

/-- An empty historical store. -/
def cex_raw : RawData := ⟨[], [], [], []⟩

/-- A schema-valid `ProjectionInput` whose `retention.target_d1_retention`
dictionary is empty: `Dict[str, float]` admits it, and
`main.py:1126` (`input_data.retention.target_d1_retention[scenario]`) then
raises a KeyError. -/
def cex_request : ProjectionInput :=
  { launch_date := none
    projection_days := 1
    retention := ⟨[], []⟩
    nru := ⟨[], [("best", 0), ("normal", 0), ("worst", 0)], [],
      none, none, none, none, none, none, none, none⟩
    revenue := ⟨[], [], [], []⟩
    basic_settings := none
    blending := none
    quality_score := none
    bm_type := none
    regions := none }

/-- C1 counterexample: `calculate_projection` is not total over all
schema-valid requests — a request whose per-scenario `target_d1_retention`
dictionary lacks the key `"best"` raises a KeyError at `main.py:1126`
(modelled as the error value below), so "never raises, for every
ProjectionRequest" is false as stated. -/
theorem calculate_projection_keyerror_cex :
    calculate_projection cex_oracles cex_raw [] (pySeed 0) cex_request
      = Except.error "KeyError: target_d1_retention" := rfl

theorem except_bind_ok {α β : Type} (a : α) (f : α → Except String β) :
    (Except.ok a >>= f) = f a := rfl

theorem elemOrLast_ok (xs : List ℚ) (i : ℕ) (h : xs ≠ []) :
    ∃ v, elemOrLast xs i = .ok v := by
  rw [elemOrLast]
  split
  · exact ⟨_, rfl⟩
  · cases hl : xs.getLast? with
    | some v => exact ⟨v, rfl⟩
    | none => exact absurd (List.getLast?_eq_none_iff.mp hl) h

theorem exceptMapM_ok {α β : Type} (f : α → Except String β) (xs : List α)
    (h : ∀ x ∈ xs, ∃ y, f x = .ok y) :
    ∃ ys, exceptMapM f xs = .ok ys ∧ ys.length = xs.length := by
  induction xs with
  | nil => exact ⟨[], rfl, rfl⟩
  | cons x xs ih =>
    obtain ⟨y, hy⟩ := h x (List.mem_cons_self x xs)
    obtain ⟨ys, hys, hlen⟩ := ih (fun z hz => h z (List.mem_cons_of_mem x hz))
    refine ⟨y :: ys, ?_, by simp [hlen]⟩
    rw [exceptMapM, hy]
    rw [except_bind_ok, hys]
    rfl

theorem generate_retention_curve_length (powb : ℕ → ℚ) (a t : ℚ) (days : ℕ) :
    (generate_retention_curve powb a t days).length = days := by
  rw [generate_retention_curve]
  simp

theorem generate_benchmark_retention_curve_length (npPower : ℚ → ℚ → ℚ)
    (benchFit : Benchmark → Option (ℚ × ℚ)) (benchmark : Benchmark) (days : ℕ) :
    (generate_benchmark_retention_curve npPower benchFit benchmark days).length
      = days := by
  unfold generate_benchmark_retention_curve
  rw [List.length_map, List.length_range]

theorem foldr_min_le (l : List ℕ) (a : ℕ) : l.foldr min a ≤ a := by
  induction l with
  | nil => exact le_rfl
  | cons x xs ih => exact le_trans (min_le_right x (xs.foldr min a)) ih

theorem calculate_metric_pattern_length (games : List (String × List ℚ))
    (selected : List String) (dv fv : ℚ) :
    (calculate_metric_pattern games selected dv fv).length = 365 := by
  simp only [calculate_metric_pattern]
  split
  · rw [List.length_replicate]
  · have hle := foldr_min_le (((selected.filter
      (fun g => (dictLookup games g).isSome)).map
      (fun g => (dictLookup games g).getD [])).map List.length) 365
    rw [List.length_take, List.length_append, List.length_map,
      List.length_range, List.length_replicate]
    omega

theorem seasonality_go_length (u : RNG) (regions : List String) (start : ℤ) :
    ∀ (ds : List ℕ) (k : ℕ), (seasonality_go u regions start ds k).length = ds.length := by
  intro ds
  induction ds with
  | nil => intro k; rfl
  | cons d ds ih =>
    intro k
    rw [seasonality_go, List.length_cons, List.length_cons, ih]

theorem calculate_seasonality_length (g : RNG) (regions : List String)
    (launch_date : Option (ℤ × ℤ × ℤ)) (days : ℕ) :
    (calculate_seasonality g regions launch_date days).length = days := by
  rw [calculate_seasonality, seasonality_go_length, List.length_range]

theorem calculate_dau_matrix_length (nru : List ℤ) (curve : List ℚ) (days : ℕ) :
    (calculate_dau_matrix nru curve days).length = days := by
  rw [calculate_dau_matrix]
  simp

theorem post_launch_distribution_length (pow08 : ℕ → ℚ) (total : ℤ)
    (lp days : ℕ) :
    (post_launch_distribution pow08 total lp days).length = min lp days := by
  rw [post_launch_distribution]
  simp

theorem generate_nru_series_length (pow08 : ℕ → ℚ) (expf : ℚ → ℚ)
    (total : ℤ) (days lp : ℕ) (sr : ℚ) :
    (generate_nru_series pow08 expf total days lp sr).length = days := by
  unfold generate_nru_series
  rw [List.length_take, List.length_append, List.length_map, List.length_range,
    List.length_map, List.length_range]
  omega

theorem generate_nru_series_v85_length (pow08 : ℕ → ℚ) (expf npLog : ℚ → ℚ)
    (ua brand cpa : ℤ) (bor : ℚ) (days lp : ℕ) (pmr wcr : ℚ) (cse btl : Bool) :
    (generate_nru_series_v85 pow08 expf npLog ua brand cpa bor days lp pmr wcr
      cse btl).nru_series.length = days := by
  rw [generate_nru_series_v85]
  simp only [List.length_take, List.length_zipWith, List.length_map,
    List.length_range, List.length_append, List.length_replicate,
    post_launch_distribution_length]
  omega

theorem scenario_nru_base_length (O : Oracles) (inp : ProjectionInput)
    (days : ℕ) (scenario : String) (d1_nru : ℤ) :
    (scenario_nru_base O inp days scenario d1_nru).length = days := by
  by_cases hua : 0 < pyOrInt inp.nru.ua_budget 0
  · rw [scenario_nru_base, scenario_v85]
    dsimp only
    rw [if_pos hua]
    exact generate_nru_series_v85_length _ _ _ _ _ _ _ _ _ _ _ _ _
  · rw [scenario_nru_base, scenario_v85]
    dsimp only
    rw [if_neg hua]
    exact generate_nru_series_length _ _ _ _ _ _

theorem exceptMapM_range_ok {β : Type} (f : ℕ → Except String β) (n : ℕ)
    (h : ∀ i, i < n → ∃ y, f i = .ok y) :
    ∃ ys, exceptMapM f (List.range n) = .ok ys ∧ ys.length = n := by
  obtain ⟨ys, h1, h2⟩ := exceptMapM_ok f (List.range n)
    (fun i hi => h i (List.mem_range.mp hi))
  exact ⟨ys, h1, by rw [h2, List.length_range]⟩

theorem calculate_time_decay_blended_retention_ok (ic bc : List ℚ) (days : ℕ)
    (q : ℚ) (hic : ic ≠ []) (hbc : bc ≠ []) :
    ∃ ys, calculate_time_decay_blended_retention ic bc days q = .ok ys ∧
      ys.length = days := by
  rw [calculate_time_decay_blended_retention]
  exact exceptMapM_range_ok _ days (fun i _ => by
    obtain ⟨v1, hv1⟩ := elemOrLast_ok ic i hic
    obtain ⟨v2, hv2⟩ := elemOrLast_ok bc i hbc
    exact ⟨_, by rw [hv1, except_bind_ok, hv2, except_bind_ok]⟩)

theorem calculate_blended_retention_ok (ic bc : List ℚ) (w : ℚ)
    (hic : ic ≠ []) (hbc : bc ≠ []) :
    ∃ ys, calculate_blended_retention ic bc w = .ok ys ∧
      ys.length = ic.length := by
  rw [calculate_blended_retention]
  exact exceptMapM_range_ok _ ic.length (fun i _ => by
    obtain ⟨v1, hv1⟩ := elemOrLast_ok ic i hic
    obtain ⟨v2, hv2⟩ := elemOrLast_ok bc i hbc
    exact ⟨_, by rw [hv1, except_bind_ok, hv2, except_bind_ok]⟩)

theorem calculate_blended_pr_ok (ip : List ℚ) (bp w : ℚ) (days : ℕ)
    (hip : ip ≠ []) :
    ∃ ys, calculate_blended_pr ip bp w days = .ok ys ∧ ys.length = days := by
  rw [calculate_blended_pr]
  exact exceptMapM_range_ok _ days (fun i _ => by
    obtain ⟨v1, hv1⟩ := elemOrLast_ok ip i hip
    exact ⟨_, by rw [hv1, except_bind_ok]⟩)

theorem calculate_blended_arppu_ok (ia : List ℚ) (ba w : ℚ) (days : ℕ)
    (hia : ia ≠ []) :
    ∃ ys, calculate_blended_arppu ia ba w days = .ok ys ∧ ys.length = days := by
  rw [calculate_blended_arppu]
  exact exceptMapM_range_ok _ days (fun i _ => by
    obtain ⟨v1, hv1⟩ := elemOrLast_ok ia i hia
    exact ⟨_, by rw [hv1, except_bind_ok]⟩)

theorem calculate_revenue_ok (dau : List ℤ) (pr arppu : List ℚ)
    (hpr : pr ≠ []) (harppu : arppu ≠ []) :
    ∃ ys, calculate_revenue dau pr arppu = .ok ys ∧
      ys.length = dau.length := by
  rw [calculate_revenue]
  exact exceptMapM_range_ok _ dau.length (fun i _ => by
    obtain ⟨v1, hv1⟩ := elemOrLast_ok pr i hpr
    obtain ⟨v2, hv2⟩ := elemOrLast_ok arppu i harppu
    exact ⟨_, by rw [hv1, except_bind_ok, hv2, except_bind_ok]⟩)

theorem pyMax_ok (xs : List ℤ) (h : xs ≠ []) : ∃ m, pyMax xs = .ok m := by
  rw [pyMax]
  cases hm : xs.max? with
  | some m => exact ⟨m, rfl⟩
  | none => exact absurd (List.max?_eq_none_iff.mp hm) h

theorem npMeanE_ok (xs : List ℚ) (h : xs.length ≠ 0) :
    ∃ v, npMeanE xs = .ok v := by
  rw [npMeanE, if_neg h]
  exact ⟨_, rfl⟩

theorem scenario_ret_curve_ok (utd ubo : Bool) (ic bc : List ℚ)
    (bscale bw qm : ℚ) (days : ℕ) (hdays : 0 < days)
    (hic : ic.length = days) (hbc : bc.length = days) :
    ∃ rc, scenario_ret_curve utd ubo ic bc bscale bw qm days = .ok rc ∧
      rc.length = days := by
  have hicne : ic ≠ [] := by
    intro hnil; rw [hnil] at hic; simp at hic; omega
  have hbcne : bc.map (fun r => min (r * bscale) 1.0) ≠ [] := by
    intro hnil
    have := congrArg List.length hnil
    rw [List.length_map, hbc] at this
    simp at this
    omega
  rw [scenario_ret_curve]
  split
  · exact calculate_time_decay_blended_retention_ok _ _ _ _ hicne hbcne
  · split
    · obtain ⟨ys, h1, h2⟩ := calculate_blended_retention_ok ic
        (bc.map (fun r => min (r * bscale) 1.0)) bw hicne hbcne
      exact ⟨ys, h1, by rw [h2, hic]⟩
    · exact ⟨_, rfl, by rw [List.length_map, hbc]⟩

theorem scenario_pr_base_ok (ubo : Bool) (prp : List ℚ) (bpr qm bw : ℚ)
    (days : ℕ) (hprp : prp ≠ []) :
    ∃ ys, scenario_pr_base ubo prp bpr qm bw days = .ok ys ∧
      ys.length = days := by
  rw [scenario_pr_base]
  split
  · exact calculate_blended_pr_ok _ _ _ _ hprp
  · exact ⟨_, rfl, List.length_replicate days _⟩

theorem scenario_arppu_base_ok (ubo : Bool) (arp : List ℚ) (ba qm bw : ℚ)
    (days : ℕ) (harp : arp ≠ []) :
    ∃ ys, scenario_arppu_base ubo arp ba qm bw days = .ok ys ∧
      ys.length = days := by
  rw [scenario_arppu_base]
  split
  · exact calculate_blended_arppu_ok _ _ _ _ harp
  · exact ⟨_, rfl, List.length_replicate days _⟩

theorem projection_scenario_ok (O : Oracles) (inp : ProjectionInput)
    (sf : List ℚ) (bw : ℚ) (ubo utd : Bool) (qm : ℚ) (bench : Benchmark)
    (bcurve : List ℚ) (a b : ℚ) (prp arp : List ℚ) (days : ℕ) (scen : String)
    (hdays : 0 < days)
    (ht : (dictLookup inp.retention.target_d1_retention scen).isSome = true)
    (hd : (dictLookup inp.nru.d1_nru scen).isSome = true)
    (hsf : sf.length = days) (hbcurve : bcurve.length = days)
    (hprp : prp ≠ []) (harp : arp ≠ []) :
    ∃ p : ScenarioResult × Option V85NruMeta,
      projection_scenario O inp sf bw ubo utd qm bench bcurve a b prp arp
        days scen = .ok p ∧
      p.1.full_nru.length = days ∧ p.1.full_dau.length = days ∧
      p.1.full_revenue.length = days ∧ p.1.full_retention.length = days ∧
      p.1.full_pr.length = days ∧ p.1.full_arppu.length = days := by
  obtain ⟨td, htd⟩ := Option.isSome_iff_exists.mp ht
  obtain ⟨dn, hdn⟩ := Option.isSome_iff_exists.mp hd
  obtain ⟨rc, hrc, hrclen⟩ := scenario_ret_curve_ok utd ubo
    (generate_retention_curve (fun x => O.npPower ((x : ℕ) : ℚ) b) a td days)
    bcurve (if 0 < bench.d1 then td / bench.d1 else 1.0) bw qm days hdays
    (generate_retention_curve_length _ _ _ _) hbcurve
  have hnslen : (List.zipWith (fun (nru : ℤ) (sfv : ℚ) => pyInt ((nru : ℚ) * sfv))
      (scenario_nru_base O inp days scen dn) sf).length = days := by
    rw [List.length_zipWith, scenario_nru_base_length, hsf]
    omega
  have hdaulen : (calculate_dau_matrix
      (List.zipWith (fun (nru : ℤ) (sfv : ℚ) => pyInt ((nru : ℚ) * sfv))
        (scenario_nru_base O inp days scen dn) sf) rc days).length = days :=
    calculate_dau_matrix_length _ _ _
  have hdaune : calculate_dau_matrix
      (List.zipWith (fun (nru : ℤ) (sfv : ℚ) => pyInt ((nru : ℚ) * sfv))
        (scenario_nru_base O inp days scen dn) sf) rc days ≠ [] :=
    List.length_pos.mp (by rw [hdaulen]; omega)
  obtain ⟨pr0, hpr0, hpr0len⟩ := scenario_pr_base_ok ubo prp bench.pr qm bw days hprp
  obtain ⟨ar0, har0, har0len⟩ := scenario_arppu_base_ok ubo arp bench.arppu qm bw days harp
  have hprsne : pr0.map (fun p => p *
      (1 + (if scen = "best" then dictGetD inp.revenue.pr_adjustment "best_vs_normal" 0
        else if scen = "worst" then dictGetD inp.revenue.pr_adjustment "worst_vs_normal" 0
        else 0))) ≠ [] :=
    List.length_pos.mp (by rw [List.length_map, hpr0len]; omega)
  have harsne : List.zipWith (fun (v : ℚ) (sfv : ℚ) => v * sfv)
      (ar0.map (fun v => v *
        (1 + (if scen = "best" then dictGetD inp.revenue.arppu_adjustment "best_vs_normal" 0
          else if scen = "worst" then dictGetD inp.revenue.arppu_adjustment "worst_vs_normal" 0
          else 0)))) sf ≠ [] :=
    List.length_pos.mp (by
      rw [List.length_zipWith, List.length_map, har0len, hsf]
      omega)
  obtain ⟨rev, hrev, hrevlen⟩ := calculate_revenue_ok
    (calculate_dau_matrix
      (List.zipWith (fun (nru : ℤ) (sfv : ℚ) => pyInt ((nru : ℚ) * sfv))
        (scenario_nru_base O inp days scen dn) sf) rc days)
    (pr0.map (fun p => p *
      (1 + (if scen = "best" then dictGetD inp.revenue.pr_adjustment "best_vs_normal" 0
        else if scen = "worst" then dictGetD inp.revenue.pr_adjustment "worst_vs_normal" 0
        else 0))))
    (List.zipWith (fun (v : ℚ) (sfv : ℚ) => v * sfv)
      (ar0.map (fun v => v *
        (1 + (if scen = "best" then dictGetD inp.revenue.arppu_adjustment "best_vs_normal" 0
          else if scen = "worst" then dictGetD inp.revenue.arppu_adjustment "worst_vs_normal" 0
          else 0)))) sf)
    hprsne harsne
  obtain ⟨pk, hpk⟩ := pyMax_ok _ hdaune
  obtain ⟨dav, hdav⟩ := npMeanE_ok ((calculate_dau_matrix
      (List.zipWith (fun (nru : ℤ) (sfv : ℚ) => pyInt ((nru : ℚ) * sfv))
        (scenario_nru_base O inp days scen dn) sf) rc days).map
      (fun (n : ℤ) => (n : ℚ)))
    (by have h := hdaulen; simp only [List.length_map]; omega)
  obtain ⟨rav, hrav⟩ := npMeanE_ok rev
    (by have h := hrevlen.trans hdaulen; omega)
  rw [projection_scenario]
  simp only [htd, hdn, except_bind_ok, hrc, hpr0, har0, hrev, hpk, hdav, hrav]
  refine ⟨_, rfl, ?_, ?_, ?_, ?_, ?_, ?_⟩
  · exact hnslen
  · exact hdaulen
  · exact hrevlen.trans hdaulen
  · exact hrclen
  · exact (List.length_map _ _).trans hpr0len
  · exact (List.length_zipWith ..).trans
      (by rw [List.length_map, har0len, hsf, min_self])

theorem projection_env_seasonality_length (O : Oracles) (raw : RawData)
    (g : RNG) (inp : ProjectionInput) :
    (projection_env O raw g inp).seasonality.length = inp.projection_days :=
  calculate_seasonality_length g (pyOrList inp.regions ["global"])
    inp.launch_date inp.projection_days

theorem projection_env_bcurve_length (O : Oracles) (raw : RawData)
    (g : RNG) (inp : ProjectionInput) :
    (projection_env O raw g inp).benchmark_ret_curve.length
      = inp.projection_days :=
  generate_benchmark_retention_curve_length _ _ _ _

theorem projection_env_pr_pattern_ne (O : Oracles) (raw : RawData)
    (g : RNG) (inp : ProjectionInput) :
    (projection_env O raw g inp).pr_pattern ≠ [] := by
  have h : (projection_env O raw g inp).pr_pattern.length = 365 :=
    calculate_metric_pattern_length _ _ _ _
  exact List.length_pos.mp (by omega)

theorem projection_env_arppu_pattern_ne (O : Oracles) (raw : RawData)
    (g : RNG) (inp : ProjectionInput) :
    (projection_env O raw g inp).arppu_pattern ≠ [] := by
  have h : (projection_env O raw g inp).arppu_pattern.length = 365 :=
    calculate_metric_pattern_length _ _ _ _
  exact List.length_pos.mp (by omega)

/-- The structural-validity predicate of P6: every full daily series of a
scenario block has exactly `days` entries (and, being rationals, carries no
NaN or Infinity). -/
def scenario_series_lengths (r : ScenarioResult) (days : ℕ) : Prop :=
  r.full_nru.length = days ∧ r.full_dau.length = days ∧
  r.full_revenue.length = days ∧ r.full_retention.length = days ∧
  r.full_pr.length = days ∧ r.full_arppu.length = days

/-- C1 amended: the projection is total and structurally valid on every
request with a positive horizon whose per-scenario dictionaries contain the
three scenario keys and whose budget fields are nonnegative — the
counterexample forces the key condition (missing keys raise KeyError) and
the positive horizon (an empty horizon raises ValueError at
`max(dau_series)`); nonnegative budgets keep the run inside the rational
model (a brand budget below `-ua_budget` reaches `np.log` of a nonpositive
argument, producing a float NaN outside this model).  Every output series is
a list of (finite) rationals of exactly the documented length, for all three
scenarios. -/
theorem calculate_projection_total (O : Oracles) (raw : RawData)
    (cfg : List (String × ℚ)) (g : RNG) (inp : ProjectionInput)
    (hdays : 0 < inp.projection_days)
    (htb : (dictLookup inp.retention.target_d1_retention "best").isSome = true)
    (htn : (dictLookup inp.retention.target_d1_retention "normal").isSome = true)
    (htw : (dictLookup inp.retention.target_d1_retention "worst").isSome = true)
    (hdb : (dictLookup inp.nru.d1_nru "best").isSome = true)
    (hdn : (dictLookup inp.nru.d1_nru "normal").isSome = true)
    (hdw : (dictLookup inp.nru.d1_nru "worst").isSome = true)
    (_hua : 0 ≤ pyOrInt inp.nru.ua_budget 0)
    (_hbrand : 0 ≤ pyOrInt inp.nru.brand_budget 0) :
    ∃ res, calculate_projection O raw cfg g inp = .ok res ∧
      scenario_series_lengths res.best inp.projection_days ∧
      scenario_series_lengths res.normal inp.projection_days ∧
      scenario_series_lengths res.worst inp.projection_days := by
  obtain ⟨p1, hp1, l11, l12, l13, l14, l15, l16⟩ := projection_scenario_ok O inp
    (projection_env O raw g inp).seasonality
    (projection_env O raw g inp).base_weight
    (projection_env O raw g inp).use_benchmark_only
    (projection_env O raw g inp).use_time_decay
    (projection_env O raw g inp).quality_multiplier
    (projection_env O raw g inp).benchmark
    (projection_env O raw g inp).benchmark_ret_curve
    (projection_env O raw g inp).coeff_a
    (projection_env O raw g inp).coeff_b
    (projection_env O raw g inp).pr_pattern
    (projection_env O raw g inp).arppu_pattern
    inp.projection_days "best" hdays htb hdb
    (projection_env_seasonality_length O raw g inp)
    (projection_env_bcurve_length O raw g inp)
    (projection_env_pr_pattern_ne O raw g inp)
    (projection_env_arppu_pattern_ne O raw g inp)
  obtain ⟨p2, hp2, l21, l22, l23, l24, l25, l26⟩ := projection_scenario_ok O inp
    (projection_env O raw g inp).seasonality
    (projection_env O raw g inp).base_weight
    (projection_env O raw g inp).use_benchmark_only
    (projection_env O raw g inp).use_time_decay
    (projection_env O raw g inp).quality_multiplier
    (projection_env O raw g inp).benchmark
    (projection_env O raw g inp).benchmark_ret_curve
    (projection_env O raw g inp).coeff_a
    (projection_env O raw g inp).coeff_b
    (projection_env O raw g inp).pr_pattern
    (projection_env O raw g inp).arppu_pattern
    inp.projection_days "normal" hdays htn hdn
    (projection_env_seasonality_length O raw g inp)
    (projection_env_bcurve_length O raw g inp)
    (projection_env_pr_pattern_ne O raw g inp)
    (projection_env_arppu_pattern_ne O raw g inp)
  obtain ⟨p3, hp3, l31, l32, l33, l34, l35, l36⟩ := projection_scenario_ok O inp
    (projection_env O raw g inp).seasonality
    (projection_env O raw g inp).base_weight
    (projection_env O raw g inp).use_benchmark_only
    (projection_env O raw g inp).use_time_decay
    (projection_env O raw g inp).quality_multiplier
    (projection_env O raw g inp).benchmark
    (projection_env O raw g inp).benchmark_ret_curve
    (projection_env O raw g inp).coeff_a
    (projection_env O raw g inp).coeff_b
    (projection_env O raw g inp).pr_pattern
    (projection_env O raw g inp).arppu_pattern
    inp.projection_days "worst" hdays htw hdw
    (projection_env_seasonality_length O raw g inp)
    (projection_env_bcurve_length O raw g inp)
    (projection_env_pr_pattern_ne O raw g inp)
    (projection_env_arppu_pattern_ne O raw g inp)
  rw [calculate_projection]
  simp only [hp1, hp2, hp3, except_bind_ok]
  exact ⟨_, rfl, ⟨l11, l12, l13, l14, l15, l16⟩,
    ⟨l21, l22, l23, l24, l25, l26⟩, ⟨l31, l32, l33, l34, l35, l36⟩⟩

/-- A well-formed request at the smallest claimed horizon (1 day), with all
three scenario keys present and no budgets set. -/
def wit_request : ProjectionInput :=
  { launch_date := some (2026, 11, 12)
    projection_days := 1
    retention := ⟨[], [("best", 0.45), ("normal", 0.40), ("worst", 0.35)]⟩
    nru := ⟨[], [("best", 1000), ("normal", 900), ("worst", 800)],
      [("best_vs_normal", 0.1), ("worst_vs_normal", -0.1)],
      none, none, none, none, none, none, none, none⟩
    revenue := ⟨[], [], [], []⟩
    basic_settings := none
    blending := none
    quality_score := none
    bm_type := none
    regions := none }

/-- Witness for `calculate_projection_total` at a concrete single-day
request. -/
theorem calculate_projection_total_witness :
    ∃ res, calculate_projection cex_oracles cex_raw [] (pySeed 0) wit_request
        = .ok res ∧
      scenario_series_lengths res.best wit_request.projection_days ∧
      scenario_series_lengths res.normal wit_request.projection_days ∧
      scenario_series_lengths res.worst wit_request.projection_days :=
  calculate_projection_total cex_oracles cex_raw [] (pySeed 0) wit_request
    (by decide) (by rfl) (by rfl) (by rfl) (by rfl) (by rfl) (by rfl)
    (by decide) (by decide)
